import Mathlib

/-!
Verification development for the Abode AI CFD/mesh job-orchestration layer.

This file gives a shallow embedding of the two Flask job servers
(`src/docker/cfd/openfoam/cfd-server.py` and
`src/docker/cfd/openfoam/mesh-server.py`) and proves properties of the
job lifecycle: status state machine, progress updates, error handling of
the request handlers, the progress estimator, and workspace isolation.

Modelling conventions:
* Python floats are modelled as rationals (`ℚ`); none of the verified
  properties depends on binary floating-point rounding.
* Python `int()` truncation toward zero is `pyInt`.
* Statuses are the literal strings the servers store.
* Interactions with the outside world (filesystem outcomes, subprocess
  exit codes, wall-clock samples, solver log snapshots) are passed in as
  explicit environment records (`SimEnv`, `MeshEnv`, ...); each field is
  documented with the source line whose outcome it models.
* A runner's execution is embedded as the list of successive `JobRecord`
  snapshots, one after every field assignment the Python code performs,
  so that any interleaved observation by a polling client corresponds to
  some element of the trace.
-/

/-- Python `int(x)` applied to a rational: truncation toward zero.
For a rational in lowest terms with positive denominator this is
T-division of the numerator by the denominator. -/
def pyInt (q : ℚ) : Int := q.num.tdiv q.den

/-- Python `str.lower()` restricted to what the servers compare:
lower-case each character. (`mesh-server.py` line 87 lowercases the
geometry suffix before the membership test.) -/
def strLower (s : String) : String := String.mk (s.data.map Char.toLower)

/-- Lexicographic comparison of character lists by code point, as Python
compares `str` values inside tuple sorting (`mesh-server.py` is not
involved; used by `_get_latest_time` in `cfd-server.py` lines 724-739
through tuple comparison `(float, str)`). -/
def charListLt : List Char → List Char → Bool
  | _, [] => false
  | [], _ :: _ => true
  | a :: as, b :: bs =>
      if a < b then true
      else if a = b then charListLt as bs
      else false

/-- Python `str < str` on the servers' directory names. -/
def strLtB (a b : String) : Bool := charListLt a.data b.data

/-! ## CFD simulation server (`cfd-server.py`) -/

/-- One line of the solver log as far as `_parse_log_progress`
(`cfd-server.py` lines 622-646) can distinguish lines:
a line `Time = v` whose right-hand side parses as a float (`marker v`),
a line starting with `Time =` whose value fails `float()` (`badMarker`,
swallowed by the inner `except`), or any other line. -/
inductive LogLine where
  | marker (v : ℚ)
  | badMarker
  | other
deriving DecidableEq

/-- The list `time_steps` collected by `_parse_log_progress`
(`cfd-server.py` lines 629-636): the values of the well-formed
`Time =` lines, in file order. -/
def logMarkers (lines : List LogLine) : List ℚ :=
  lines.filterMap fun l =>
    match l with
    | .marker v => some v
    | _ => none

/-- `CFDSimulation._parse_log_progress` (`cfd-server.py` lines 622-646).
`file = none` models an unreadable log (the outer `except` returns 0.0);
`simulationTime` is the raw `config.get("simulation_time")` (default
1000, line 640). A zero total time raises `ZeroDivisionError` in Python,
which the outer `except` also maps to 0.0, hence the explicit zero test.
Otherwise the result is `min(current_time / end_time, 1.0)` for the last
marker (line 641), or 0.0 when no marker is present (line 643). -/
def parseLogProgress (file : Option (List LogLine)) (simulationTime : Option ℚ) : ℚ :=
  match file with
  | none => 0
  | some lines =>
    match (logMarkers lines).getLast? with
    | none => 0
    | some current =>
      let endT := simulationTime.getD 1000
      if endT = 0 then 0 else min (current / endT) 1

/-- The caller-supplied simulation config (`cfd-server.py`): a JSON
object; each field is `none` when the key is absent.  Keys read by the
server: `wind_speed` (lines 114, 427, 780), `mesh_id` (line 69, 780),
`simulation_time` (lines 356, 640), `turbulence_model` (line 329). -/
structure SimConfig where
  wind_speed : Option ℚ
  mesh_id : Option String
  simulation_time : Option ℚ
  turbulence_model : Option String
deriving DecidableEq

/-- The mutable state of one `CFDSimulation` object
(`cfd-server.py` lines 34-43). `case_dir`/`result_dir` are derived from
the id (see `caseDirOf`/`resultDirOf`) and not duplicated here. -/
structure CFDSim where
  id : String
  config : SimConfig
  status : String
  progress : Int
  error : Option String
  start_time : Option ℚ
  end_time : Option ℚ
deriving DecidableEq

/-- `CFDSimulation.__init__` (`cfd-server.py` lines 34-43). -/
def CFDSim.init (simulationId : String) (config : SimConfig) : CFDSim :=
  { id := simulationId
    config := config
    status := "queued"
    progress := 0
    error := none
    start_time := none
    end_time := none }

/-- One entry of `case_dir.iterdir()` as consumed by `_get_latest_time`
(`cfd-server.py` lines 724-739): its name, whether it is a directory,
and the result of `float(item.name)` (`none` when `float()` raises,
which the inner `except` swallows). -/
structure DirEntry where
  name : String
  isDir : Bool
  numVal : Option ℚ
deriving DecidableEq

/-- Python tuple comparison `(float, str) < (float, str)` used by the
`time_dirs.sort(reverse=True)` call in `_get_latest_time`. -/
def pairLt (a b : ℚ × String) : Bool :=
  if a.1 < b.1 then true
  else if a.1 = b.1 then strLtB a.2 b.2
  else false

/-- `CFDSimulation._get_latest_time` (`cfd-server.py` lines 724-739):
collect `(float(name), name)` for the directory entries whose name
parses, sort descending, return the name of the first (the maximum),
or `None` when there is no numeric directory. -/
def getLatestTime (entries : List DirEntry) : Option String :=
  let timeDirs := entries.filterMap fun e =>
    if e.isDir then e.numVal.map fun v => (v, e.name) else none
  match timeDirs with
  | [] => none
  | x :: xs => some ((xs.foldl (fun best p => if pairLt best p then p else best) x).2)

/-- The environment of one simulation run: outcomes of every external
interaction of `setup_case`/`run_simulation`, in program order. -/
structure SimEnv where
  /-- `setup_case` lines 49-66: message of an exception raised while
  creating directories or writing the config artifacts, `none` when
  they all succeed. -/
  setupRaise : Option String
  /-- `mesh_dir.exists()` at line 72. -/
  meshDirExists : Bool
  /-- message of an exception raised by `shutil.copytree` (line 73),
  `none` when the copy succeeds (only reached when a mesh id is given
  and the mesh directory exists). -/
  copyRaise : Option String
  /-- `time.time()` at line 562 (`start_time`). -/
  t0 : ℚ
  /-- exit code of the `checkMesh` subprocess (lines 570-576). -/
  checkMeshExit : Int
  /-- the snapshots of `log.simpleFoam` read by the monitor loop,
  one per iteration of `while process.poll() is None` (lines 594-598);
  `none` models an unreadable file. -/
  polls : List (Option (List LogLine))
  /-- exit code of the `simpleFoam` process (line 600). -/
  solverExit : Int
  /-- message of an exception raised inside `_post_process`
  (lines 648-671), `none` when it completes. -/
  postRaise : Option String
  /-- `case_dir.iterdir()` as seen by `_get_latest_time` during
  post-processing. -/
  caseEntries : List DirEntry
  /-- which of the field files `U, p, k, epsilon` exist in the copied
  time directory (lines 668-671). -/
  fieldsPresent : List String
  /-- `time.time()` at line 613 (`end_time`). -/
  t1 : ℚ

/-- The two consecutive assignments every failure branch performs:
`self.error = msg` followed by `self.status = "failed"`, with the
intermediate snapshot observable. -/
def failPair (s : CFDSim) (msg : String) : CFDSim × List CFDSim :=
  let s1 := { s with error := some msg }
  let s2 := { s1 with status := "failed" }
  (s2, [s1, s2])

/-- The outcome of the mesh-copy block of `setup_case` (`cfd-server.py`
lines 68-76): the exception message when `shutil.copytree` raises,
otherwise `none` — including the case of a `mesh_id` whose mesh
directory does not exist, which lines 70-72 silently skip. -/
def setupCopyOutcome (config : SimConfig) (env : SimEnv) : Option String :=
  match config.mesh_id with
  | some _ => if env.meshDirExists then env.copyRaise else none
  | none => none

/-- `CFDSimulation.setup_case` (`cfd-server.py` lines 45-84), returning
the final record, the snapshot trace, and the boolean result.  Note the
mesh-copy logic of lines 68-76: when `mesh_id` is given but the mesh
directory does not exist, the copy is silently skipped and setup
continues. -/
def setupCase (s : CFDSim) (env : SimEnv) : CFDSim × List CFDSim × Bool :=
  let s1 := { s with status := "setting_up" }
  match env.setupRaise with
  | some m =>
    let f := failPair s1 ("Setup failed: " ++ m)
    (f.1, s1 :: f.2, false)
  | none =>
    match setupCopyOutcome s.config env with
    | some m =>
      let f := failPair s1 ("Setup failed: " ++ m)
      (f.1, s1 :: f.2, false)
    | none =>
      let s2 := { s1 with progress := 20 }
      (s2, [s1, s2], true)

/-- One iteration of the monitor loop (`cfd-server.py` lines 594-598):
`self.progress = 50 + int(progress * 0.4)` where `progress` is the
value of `_parse_log_progress` on the current log snapshot. -/
def monitorStep (simulationTime : Option ℚ) (s : CFDSim)
    (log : Option (List LogLine)) : CFDSim :=
  { s with progress := 50 + pyInt (parseLogProgress log simulationTime * (2 / 5)) }

/-- The whole monitor loop: final record plus the snapshot after each
iteration. -/
def monitorRun (simulationTime : Option ℚ) (s : CFDSim) :
    List (Option (List LogLine)) → CFDSim × List CFDSim
  | [] => (s, [])
  | log :: rest =>
    let s1 := monitorStep simulationTime s log
    let out := monitorRun simulationTime s1 rest
    (out.1, s1 :: out.2)

/-- The files `_post_process` copies into the result directory
(`cfd-server.py` lines 659-671): nothing when `_get_latest_time`
returns `None`, otherwise those of `U, p, k, epsilon` that exist in the
latest time directory (provided that directory still exists). -/
def postProcessCopies (env : SimEnv) : List String :=
  match getLatestTime env.caseEntries with
  | none => []
  | some timeName =>
    if env.caseEntries.any (fun e => e.name == timeName && e.isDir) then
      ["U", "p", "k", "epsilon"].filter fun f => env.fieldsPresent.contains f
    else []

/-- `CFDSimulation.run_simulation` (`cfd-server.py` lines 558-620),
returning the final record, the snapshot trace, and the list of result
files copied by `_post_process`. -/
def runSimulation (s : CFDSim) (env : SimEnv) :
    CFDSim × List CFDSim × List String :=
  let r1 := { s with status := "running" }
  let r2 := { r1 with start_time := some env.t0 }
  let r3 := { r2 with progress := 40 }
  let r4 := { r3 with progress := 45 }
  if env.checkMeshExit ≠ 0 then
    let f := failPair r4 "Mesh check failed"
    (f.1, [r1, r2, r3, r4] ++ f.2, [])
  else
    let r5 := { r4 with progress := 50 }
    let mon := monitorRun s.config.simulation_time r5 env.polls
    if env.solverExit ≠ 0 then
      let f := failPair mon.1 "Simulation failed"
      (f.1, [r1, r2, r3, r4, r5] ++ mon.2 ++ f.2, [])
    else
      let r6 := { mon.1 with progress := 90 }
      let r7 := { r6 with status := "post_processing" }
      match env.postRaise with
      | some m =>
        let f := failPair r7 ("Simulation error: " ++ m)
        (f.1, [r1, r2, r3, r4, r5] ++ mon.2 ++ [r6, r7] ++ f.2, [])
      | none =>
        let copies := postProcessCopies env
        let r8 := { r7 with progress := 100 }
        let r9 := { r8 with status := "completed" }
        let r10 := { r9 with end_time := some env.t1 }
        (r10, [r1, r2, r3, r4, r5] ++ mon.2 ++ [r6, r7, r8, r9, r10], copies)

/-- Result of one background runner execution. -/
structure ThreadOut where
  final : CFDSim
  trace : List CFDSim
  copies : List String
deriving DecidableEq

/-- `run_simulation_thread` (`cfd-server.py` lines 761-764): run
`setup_case`, and `run_simulation` only when setup succeeded.  The
trace starts with the freshly constructed record (status `queued`). -/
def runSimulationThread (simulationId : String) (config : SimConfig)
    (env : SimEnv) : ThreadOut :=
  let s0 := CFDSim.init simulationId config
  let st := setupCase s0 env
  if st.2.2 then
    let r := runSimulation st.1 env
    ⟨r.1, s0 :: st.2.1 ++ r.2.1, r.2.2⟩
  else
    ⟨st.1, s0 :: st.2.1, []⟩

/-- Python truthiness of an optional float (`if self.start_time:` at
`cfd-server.py` line 744): false for `None` and for `0.0`. -/
def truthyTime (x : Option ℚ) : Bool :=
  match x with
  | none => false
  | some v => decide (v ≠ 0)

/-- The JSON object returned by `CFDSimulation.get_status`
(`cfd-server.py` lines 741-758). -/
structure StatusView where
  id : String
  status : String
  progress : Int
  error : Option String
  duration : Option ℚ
  start_time : Option ℚ
  end_time : Option ℚ
deriving DecidableEq

/-- `CFDSimulation.get_status` (`cfd-server.py` lines 741-758); `now`
models the `time.time()` call at line 748.  A pure read: the record is
not modified. -/
def CFDSim.getStatus (s : CFDSim) (now : ℚ) : StatusView :=
  let duration : Option ℚ :=
    if truthyTime s.start_time then
      match s.start_time with
      | none => none
      | some st =>
        if truthyTime s.end_time then
          match s.end_time with
          | none => none
          | some et => some (et - st)
        else some (now - st)
    else none
  { id := s.id
    status := s.status
    progress := s.progress
    error := s.error
    duration := duration
    start_time := s.start_time
    end_time := s.end_time }

/-- Responses of the simulation server routes. -/
inductive SimResp where
  /-- 202 `{"simulation_id": id, "status": "queued"}` (lines 797-800). -/
  | accepted (simulationId : String)
  /-- 200 with a full status snapshot (line 815). -/
  | statusOk (view : StatusView)
  /-- 200 `{"status": "cancelled"}` (line 830). -/
  | cancelledOk
  /-- 400 `{"error": msg}` (line 783). -/
  | badRequest (msg : String)
  /-- 404 `{"error": msg}` (lines 813, 825). -/
  | notFound (msg : String)
  /-- 500 `{"error": str(e)}` (line 803). -/
  | serverError (msg : String)
deriving DecidableEq

/-- The module-level `active_simulations` dict, in insertion order. -/
abbrev SimRegistry := List (String × CFDSim)

/-- Python dict assignment `active_simulations[sim_id] = simulation`:
replace the value when the key exists, else append. -/
def regSet (reg : SimRegistry) (k : String) (v : CFDSim) : SimRegistry :=
  if reg.any (fun p => p.1 == k) then
    reg.map fun p => if p.1 == k then (k, v) else p
  else reg ++ [(k, v)]

/-- `start_simulation` (`cfd-server.py` lines 773-803).  `body` is
`request.json`; `none` models an absent or `null` JSON body, on which
the membership test `field not in config` raises `TypeError`, caught by
the handler's `except` and turned into a 500 response (line 803).
`freshId` is the `uuid.uuid4()` value of line 786.  The background
thread (lines 793-795) is started after the insert; its execution is
`runSimulationThread`. -/
def startSimulation (reg : SimRegistry) (body : Option SimConfig)
    (freshId : String) : SimResp × SimRegistry :=
  match body with
  | none => (.serverError "argument of type 'NoneType' is not iterable", reg)
  | some config =>
    if config.wind_speed.isNone then
      (.badRequest "Missing required field: wind_speed", reg)
    else if config.mesh_id.isNone then
      (.badRequest "Missing required field: mesh_id", reg)
    else
      (.accepted freshId, regSet reg freshId (CFDSim.init freshId config))

/-- `get_simulation_status` (`cfd-server.py` lines 806-815): a pure
lookup; the registry is returned unchanged. -/
def getSimulationStatusHandler (reg : SimRegistry) (simulationId : String)
    (now : ℚ) : SimResp × SimRegistry :=
  match reg.lookup simulationId with
  | none => (.notFound "Simulation not found", reg)
  | some s => (.statusOk (s.getStatus now), reg)

/-- `cancel_simulation` (`cfd-server.py` lines 818-830): when the id is
known, unconditionally assign `simulation.status = "cancelled"` (line
828) — there is no check of the current status. -/
def cancelSimulation (reg : SimRegistry) (simulationId : String) :
    SimResp × SimRegistry :=
  match reg.lookup simulationId with
  | none => (.notFound "Simulation not found", reg)
  | some s => (.cancelledOk, regSet reg simulationId { s with status := "cancelled" })

/-- The status strings the specification allows (`spec.md` section 3). -/
def allowedStatuses : List String :=
  ["queued", "setting_up", "running", "post_processing", "completed",
   "failed", "cancelled"]

/-- Collapse consecutive duplicates, to read a snapshot trace as the
sequence of distinct states it passes through. -/
def collapse : List String → List String
  | [] => []
  | [a] => [a]
  | a :: b :: t => if a = b then collapse (b :: t) else a :: collapse (b :: t)

/-! ## Mesh generation server (`mesh-server.py`) -/

/-- The caller-supplied mesh config (`mesh-server.py`): keys read are
`domain_factor` (line 116), `cell_size` (line 128), `refinement_level`
(line 219); each is `none` when absent. -/
structure MeshConfig where
  refinement_level : Option Int
  cell_size : Option ℚ
  domain_factor : Option ℚ
deriving DecidableEq

/-- The default `{}` used by `data.get("config", {})` (line 516). -/
def MeshConfig.empty : MeshConfig :=
  { refinement_level := none, cell_size := none, domain_factor := none }

/-- The mutable state of one `MeshGenerationJob` object
(`mesh-server.py` lines 35-46).  `mesh_stats` is not modelled: no
verified property mentions it and it is written only once from the
`checkMesh` output. -/
structure MeshJob where
  id : String
  geometry_file : String
  config : MeshConfig
  status : String
  progress : Int
  error : Option String
  start_time : Option ℚ
  end_time : Option ℚ
deriving DecidableEq

/-- `MeshGenerationJob.__init__` (`mesh-server.py` lines 35-46). -/
def MeshJob.init (jobId : String) (geometryFile : String)
    (config : MeshConfig) : MeshJob :=
  { id := jobId
    geometry_file := geometryFile
    config := config
    status := "queued"
    progress := 0
    error := none
    start_time := none
    end_time := none }

/-- The geometry formats accepted by `_convert_geometry_to_stl`
(`mesh-server.py` line 87). -/
def supportedSuffixes : List String := [".stl", ".obj", ".ply", ".glb", ".gltf"]

/-- The environment of one mesh-generation run: outcomes of the
external interactions of `setup_case`/`generate_mesh`, in program
order. -/
structure MeshEnv where
  /-- value of `Path(geometry_file).suffix` for the job's geometry file
  (`mesh-server.py` line 87). -/
  geometrySuffix : String
  /-- message of an exception raised while creating the case
  directories (lines 54-60), `none` on success. -/
  dirRaise : Option String
  /-- message of an exception raised by `trimesh.load`/`mesh.export`
  (lines 89-100, e.g. the geometry file has vanished), `none` on
  success.  Only reached for a supported suffix. -/
  loadRaise : Option String
  /-- message of an exception raised while writing the meshing
  dictionaries (lines 66-72 calling lines 105-374), `none` on
  success. -/
  writeRaise : Option String
  /-- `time.time()` at line 380 (`start_time`). -/
  t0 : ℚ
  /-- message of the `CalledProcessError` when `blockMesh` exits
  nonzero (`check=True`, lines 386-390), `none` when it exits 0. -/
  blockMeshRaise : Option String
  /-- message of the `CalledProcessError` when `surfaceFeatureExtract`
  exits nonzero (lines 394-398), `none` when it exits 0. -/
  featureRaise : Option String
  /-- the `time.time()` samples of the `snappyHexMesh` monitor loop,
  one per iteration of `while process.poll() is None` (lines 412-414). -/
  snappyPolls : List ℚ
  /-- exit code of the `snappyHexMesh` process (line 416). -/
  snappyExit : Int
  /-- message of an exception raised by `_copy_mesh` (lines 467-473),
  `none` on success. -/
  copyRaise : Option String
  /-- `time.time()` at line 437 (`end_time`). -/
  t1 : ℚ

/-- The failure assignments of `MeshGenerationJob`: `self.error = msg`
then `self.status = "failed"`. -/
def meshFailPair (s : MeshJob) (msg : String) : MeshJob × List MeshJob :=
  let s1 := { s with error := some msg }
  let s2 := { s1 with status := "failed" }
  (s2, [s1, s2])

/-- The first exception raised inside `MeshGenerationJob.setup_case`
(`mesh-server.py` lines 48-80) if any: directories, then
`_convert_geometry_to_stl` (which raises
`ValueError("Unsupported geometry format: ...")` for an unsupported
suffix, lines 87-103), then the dictionary writers.  The `except` of
lines 77-80 maps it to `error = "Setup failed: ..."`, status `failed`,
result `False`. -/
def meshSetupOutcome (env : MeshEnv) : Option String :=
  match env.dirRaise with
  | some m => some m
  | none =>
    if supportedSuffixes.contains (strLower env.geometrySuffix) then
      match env.loadRaise with
      | some m => some m
      | none => env.writeRaise
    else some ("Unsupported geometry format: " ++ env.geometrySuffix)

/-- `MeshGenerationJob.setup_case` continued: the state updates around
the outcome above. -/
def meshSetup (s : MeshJob) (env : MeshEnv) : MeshJob × List MeshJob × Bool :=
  let s1 := { s with status := "setting_up" }
  match meshSetupOutcome env with
  | some m =>
    let f := meshFailPair s1 ("Setup failed: " ++ m)
    (f.1, s1 :: f.2, false)
  | none =>
    let s2 := { s1 with progress := 20 }
    (s2, [s1, s2], true)

/-- One iteration of the `snappyHexMesh` monitor loop
(`mesh-server.py` line 414):
`self.progress = min(50 + int((time.time() - self.start_time) / 10) * 5, 85)`. -/
def meshWriteVal (t0 t : ℚ) : Int := min (50 + pyInt ((t - t0) / 10) * 5) 85

/-- The record update performed by that line. -/
def meshMonitorStep (t0 : ℚ) (s : MeshJob) (t : ℚ) : MeshJob :=
  { s with progress := meshWriteVal t0 t }

/-- The whole `snappyHexMesh` monitor loop: final record plus the
snapshot after each iteration. -/
def meshMonitorRun (t0 : ℚ) (s : MeshJob) : List ℚ → MeshJob × List MeshJob
  | [] => (s, [])
  | t :: rest =>
    let s1 := meshMonitorStep t0 s t
    let out := meshMonitorRun t0 s1 rest
    (out.1, s1 :: out.2)

/-- `MeshGenerationJob.generate_mesh` (`mesh-server.py` lines 376-444).
Note line 379: the status written is `"generating"` — not `"running"`
— and no `"post_processing"` status ever appears: after the mesh is
copied the job goes straight to `"completed"` (line 436). -/
def MeshJob.generateMesh (s : MeshJob) (env : MeshEnv) :
    MeshJob × List MeshJob :=
  let r1 := { s with status := "generating" }
  let r2 := { r1 with start_time := some env.t0 }
  let r3 := { r2 with progress := 30 }
  match env.blockMeshRaise with
  | some m =>
    let f := meshFailPair r3 ("Mesh generation failed: " ++ m)
    (f.1, [r1, r2, r3] ++ f.2)
  | none =>
    let r4 := { r3 with progress := 40 }
    match env.featureRaise with
    | some m =>
      let f := meshFailPair r4 ("Mesh generation failed: " ++ m)
      (f.1, [r1, r2, r3, r4] ++ f.2)
    | none =>
      let r5 := { r4 with progress := 50 }
      let mon := meshMonitorRun env.t0 r5 env.snappyPolls
      if env.snappyExit ≠ 0 then
        let f := meshFailPair mon.1 "snappyHexMesh failed"
        (f.1, [r1, r2, r3, r4, r5] ++ mon.2 ++ f.2)
      else
        let r6 := { mon.1 with progress := 90 }
        match env.copyRaise with
        | some m =>
          let f := meshFailPair r6 ("Mesh generation failed: " ++ m)
          (f.1, [r1, r2, r3, r4, r5] ++ mon.2 ++ [r6] ++ f.2)
        | none =>
          let r7 := { r6 with progress := 100 }
          let r8 := { r7 with status := "completed" }
          let r9 := { r8 with end_time := some env.t1 }
          (r9, [r1, r2, r3, r4, r5] ++ mon.2 ++ [r6, r7, r8, r9])

/-- Result of one mesh runner execution. -/
structure MeshThreadOut where
  final : MeshJob
  trace : List MeshJob
deriving DecidableEq

/-- `run_mesh_generation_thread` (`mesh-server.py` lines 494-497). -/
def runMeshThread (jobId : String) (geometryFile : String)
    (config : MeshConfig) (env : MeshEnv) : MeshThreadOut :=
  let s0 := MeshJob.init jobId geometryFile config
  let st := meshSetup s0 env
  if st.2.2 then
    let r := MeshJob.generateMesh st.1 env
    ⟨r.1, s0 :: st.2.1 ++ r.2⟩
  else
    ⟨st.1, s0 :: st.2.1⟩

/-- The parsed JSON body of a mesh-generation request
(`mesh-server.py` lines 510-516): `geometry_file` is `none` when the
key is absent; `config` is `none` when absent (defaulted to `{}`). -/
structure MeshRequest where
  geometry_file : Option String
  config : Option MeshConfig
deriving DecidableEq

/-- Responses of the mesh server routes. -/
inductive MeshResp where
  /-- 202 `{"job_id": id, "status": "queued"}` (lines 534-537). -/
  | accepted (jobId : String)
  /-- 400 `{"error": msg}` (line 513). -/
  | badRequest (msg : String)
  /-- 404 `{"error": msg}` (line 520). -/
  | notFound (msg : String)
  /-- 500 `{"error": str(e)}` (line 540). -/
  | serverError (msg : String)
deriving DecidableEq

/-- The module-level `mesh_jobs` dict, in insertion order. -/
abbrev MeshRegistry := List (String × MeshJob)

/-- Python dict assignment `mesh_jobs[job_id] = job`. -/
def meshRegSet (reg : MeshRegistry) (k : String) (v : MeshJob) : MeshRegistry :=
  if reg.any (fun p => p.1 == k) then
    reg.map fun p => if p.1 == k then (k, v) else p
  else reg ++ [(k, v)]

/-- `generate_mesh` route handler (`mesh-server.py` lines 506-540).
`body = none` models an absent or `null` JSON body: the membership test
`"geometry_file" not in data` raises `TypeError`, caught by the
`except` and turned into a 500 (line 540).  `geometryExists` is
`(GEOMETRIES_DIR / geometry_file).exists()` (line 519); `freshId` is
the `uuid.uuid4()` of line 523. -/
def generateMeshHandler (reg : MeshRegistry) (body : Option MeshRequest)
    (geometryExists : Bool) (freshId : String) : MeshResp × MeshRegistry :=
  match body with
  | none => (.serverError "argument of type 'NoneType' is not iterable", reg)
  | some data =>
    match data.geometry_file with
    | none => (.badRequest "geometry_file required", reg)
    | some gf =>
      if geometryExists then
        (.accepted freshId,
         meshRegSet reg freshId (MeshJob.init freshId gf (data.config.getD MeshConfig.empty)))
      else (.notFound "Geometry file not found", reg)

/-! ## Filesystem paths and the shared working directory

Paths are modelled as component lists: `CASES_DIR / simulation_id`
becomes `["cases", simulation_id]`. -/

/-- `self.case_dir = CASES_DIR / simulation_id` (`cfd-server.py`
line 39). -/
def caseDirOf (simulationId : String) : List String := ["cases", simulationId]

/-- `self.result_dir = RESULTS_DIR / simulation_id` (`cfd-server.py`
line 40). -/
def resultDirOf (simulationId : String) : List String := ["results", simulationId]

/-- The process-wide state relevant to workspace isolation: the current
working directory (shared by every thread of the process) and the log
of which job's external subprocess wrote into which directory. -/
structure CwdState where
  cwd : List String
  writes : List (List String × String)
deriving DecidableEq

/-- The two kinds of steps of `run_simulation` that interact with the
process-wide working directory: `os.chdir(self.case_dir)` (line 566)
and launching an external tool (`checkMesh` at line 570, `simpleFoam`
at line 586) with no `cwd=` argument, so it runs in — and writes its
output into — whatever the process working directory currently is. -/
inductive SimAction where
  | chdir (simulationId : String)
  | runExternal (simulationId : String)
deriving DecidableEq

/-- Effect of one action on the shared state. -/
def stepAction (st : CwdState) : SimAction → CwdState
  | .chdir simulationId => { st with cwd := caseDirOf simulationId }
  | .runExternal simulationId => { st with writes := st.writes ++ [(st.cwd, simulationId)] }

/-- Replay an interleaved schedule of the per-job action sequences. -/
def runSchedule (init : CwdState) (acts : List SimAction) : CwdState :=
  acts.foldl stepAction init

/-- The actions of one job's `run_simulation`, in order: change the
process working directory to its case directory, then run `checkMesh`,
then run `simpleFoam`. -/
def jobActions (simulationId : String) : List SimAction :=
  [.chdir simulationId, .runExternal simulationId, .runExternal simulationId]

/-- Projection of a schedule onto one job's actions. -/
def actionsOf (simulationId : String) (acts : List SimAction) : List SimAction :=
  acts.filter fun a =>
    match a with
    | .chdir sid => sid == simulationId
    | .runExternal sid => sid == simulationId

/-! ## Helper lemmas -/

theorem pyInt_eq_floor (q : ℚ) (h : 0 ≤ q) : pyInt q = ⌊q⌋ := by
  obtain ⟨m, hm⟩ := Int.eq_ofNat_of_zero_le (Rat.num_nonneg.mpr h)
  rw [Rat.floor_def, pyInt, hm, ← Int.ofNat_tdiv, Int.ofNat_ediv]

theorem pyInt_eq_zero (q : ℚ) (h : 0 ≤ q) (h1 : q < 1) : pyInt q = 0 := by
  rw [pyInt_eq_floor q h]
  exact Int.floor_eq_zero_iff.mpr ⟨h, h1⟩

theorem pyInt_nonneg (q : ℚ) (h : 0 ≤ q) : 0 ≤ pyInt q := by
  rw [pyInt_eq_floor q h]
  exact Int.floor_nonneg.mpr h

theorem pyInt_mono_nonneg (a b : ℚ) (ha : 0 ≤ a) (hab : a ≤ b) :
    pyInt a ≤ pyInt b := by
  rw [pyInt_eq_floor a ha, pyInt_eq_floor b (le_trans ha hab)]
  exact Int.floor_mono hab

/-- The progress estimator never exceeds 1. -/
theorem parseLogProgress_le_one (file : Option (List LogLine))
    (simulationTime : Option ℚ) : parseLogProgress file simulationTime ≤ 1 := by
  cases file with
  | none => norm_num [parseLogProgress]
  | some lines =>
    cases hl : (logMarkers lines).getLast? with
    | none => simp [parseLogProgress, hl]
    | some current =>
      simp only [parseLogProgress, hl]
      split
      · norm_num
      · exact min_le_right _ _

/-- With non-negative markers and a positive total time, the estimator
is non-negative. -/
theorem parseLogProgress_nonneg (file : Option (List LogLine))
    (simulationTime : Option ℚ)
    (hm : ∀ lines, file = some lines → ∀ v ∈ logMarkers lines, 0 ≤ v)
    (ht : 0 < simulationTime.getD 1000) :
    0 ≤ parseLogProgress file simulationTime := by
  cases file with
  | none => norm_num [parseLogProgress]
  | some lines =>
    cases hl : (logMarkers lines).getLast? with
    | none => simp [parseLogProgress, hl]
    | some current =>
      simp only [parseLogProgress, hl]
      split
      · norm_num
      · refine le_min ?_ (by norm_num)
        have hv : 0 ≤ current :=
          hm lines rfl current (List.mem_of_mem_getLast? hl)
        positivity

/-- Under the same hypotheses the monitor write is exactly 50:
the Python expression `50 + int(progress * 0.4)` adds 0 because
`progress * 0.4 < 1`. -/
theorem monitor_write_eq_50 (log : Option (List LogLine))
    (simulationTime : Option ℚ)
    (hm : ∀ lines, log = some lines → ∀ v ∈ logMarkers lines, 0 ≤ v)
    (ht : 0 < simulationTime.getD 1000) :
    50 + pyInt (parseLogProgress log simulationTime * (2 / 5)) = 50 := by
  have h0 : 0 ≤ parseLogProgress log simulationTime * (2 / 5) :=
    mul_nonneg (parseLogProgress_nonneg log simulationTime hm ht) (by norm_num)
  have h1 : parseLogProgress log simulationTime * (2 / 5) < 1 := by
    have := parseLogProgress_le_one log simulationTime
    nlinarith
  rw [pyInt_eq_zero _ h0 h1]
  norm_num

@[simp]
theorem monitorStep_status (t : Option ℚ) (s : CFDSim) (l : Option (List LogLine)) :
    (monitorStep t s l).status = s.status := rfl

theorem monitorRun_fst_fields (t : Option ℚ) (s : CFDSim)
    (polls : List (Option (List LogLine))) :
    (monitorRun t s polls).1.status = s.status ∧
    (monitorRun t s polls).1.error = s.error ∧
    (monitorRun t s polls).1.start_time = s.start_time ∧
    (monitorRun t s polls).1.end_time = s.end_time ∧
    (monitorRun t s polls).1.id = s.id ∧
    (monitorRun t s polls).1.config = s.config := by
  induction polls generalizing s with
  | nil => exact ⟨rfl, rfl, rfl, rfl, rfl, rfl⟩
  | cons l rest ih => simpa [monitorRun, monitorStep] using ih (monitorStep t s l)

theorem monitorRun_map_status (t : Option ℚ) (s : CFDSim)
    (polls : List (Option (List LogLine))) :
    (monitorRun t s polls).2.map CFDSim.status =
      List.replicate polls.length s.status := by
  induction polls generalizing s with
  | nil => rfl
  | cons l rest ih =>
    simp [monitorRun, List.replicate_succ]
    simpa [monitorStep] using ih (monitorStep t s l)

theorem monitorRun_snd_status (t : Option ℚ) (s : CFDSim)
    (polls : List (Option (List LogLine))) :
    ∀ x ∈ (monitorRun t s polls).2, x.status = s.status := by
  intro x hx
  have := monitorRun_map_status t s polls
  have hmem : x.status ∈ (monitorRun t s polls).2.map CFDSim.status :=
    List.mem_map_of_mem CFDSim.status hx
  rw [this] at hmem
  exact List.eq_of_mem_replicate hmem

theorem monitorRun_cons_getLast? (t : Option ℚ) (s : CFDSim)
    (polls : List (Option (List LogLine))) :
    (s :: (monitorRun t s polls).2).getLast? = some (monitorRun t s polls).1 := by
  induction polls generalizing s with
  | nil => rfl
  | cons l rest ih =>
    have := ih (monitorStep t s l)
    simpa [monitorRun, List.getLast?] using this

theorem collapse_pair (a b : String) (t : List String) (h : a ≠ b) :
    collapse (a :: b :: t) = a :: collapse (b :: t) := by
  simp [collapse, h]

theorem collapse_dup (a : String) (t : List String) :
    collapse (a :: a :: t) = collapse (a :: t) := by
  simp [collapse]

theorem collapse_replicate_cons (n : Nat) (a b : String) (t : List String)
    (h : a ≠ b) :
    collapse (List.replicate (n + 1) a ++ b :: t) = a :: collapse (b :: t) := by
  induction n with
  | zero => simpa using collapse_pair a b t h
  | succ k ih =>
    rw [List.replicate_succ]
    have hcons : List.replicate (k + 1) a ++ b :: t =
        a :: (List.replicate k a ++ b :: t) := by
      simp [List.replicate_succ]
    rw [List.cons_append, hcons, collapse_dup, ← hcons, ih]

theorem collapse_replicate_nil (n : Nat) (a : String) :
    collapse (List.replicate (n + 1) a) = [a] := by
  induction n with
  | zero => rfl
  | succ k ih =>
    rw [List.replicate_succ, List.replicate_succ]
    rw [show (a :: a :: List.replicate k a) = a :: a :: List.replicate k a from rfl]
    rw [collapse_dup, ← List.replicate_succ, ih]

theorem replicate_append_cons_same (a : String) (m : Nat) (l : List String) :
    List.replicate m a ++ a :: l = List.replicate (m + 1) a ++ l := by
  induction m with
  | zero => rfl
  | succ k ih => simp [List.replicate_succ, List.cons_append, ih]

theorem chain'_le_replicate (n : Nat) (x : Int) :
    List.Chain' (· ≤ ·) (List.replicate n x) := by
  induction n with
  | zero => simp
  | succ k ih =>
    cases k with
    | zero => simp
    | succ m =>
      rw [List.replicate_succ]
      rw [List.replicate_succ]
      exact List.Chain'.cons le_rfl (by rw [← List.replicate_succ]; exact ih)

@[simp]
theorem meshMonitorStep_status (t0 : ℚ) (s : MeshJob) (t : ℚ) :
    (meshMonitorStep t0 s t).status = s.status := rfl

theorem meshMonitorRun_fst_fields (t0 : ℚ) (s : MeshJob) (polls : List ℚ) :
    (meshMonitorRun t0 s polls).1.status = s.status ∧
    (meshMonitorRun t0 s polls).1.error = s.error ∧
    (meshMonitorRun t0 s polls).1.start_time = s.start_time ∧
    (meshMonitorRun t0 s polls).1.end_time = s.end_time := by
  induction polls generalizing s with
  | nil => exact ⟨rfl, rfl, rfl, rfl⟩
  | cons t rest ih => simpa [meshMonitorRun, meshMonitorStep] using ih (meshMonitorStep t0 s t)

theorem meshMonitorRun_map_status (t0 : ℚ) (s : MeshJob) (polls : List ℚ) :
    (meshMonitorRun t0 s polls).2.map MeshJob.status =
      List.replicate polls.length s.status := by
  induction polls generalizing s with
  | nil => rfl
  | cons t rest ih =>
    simp [meshMonitorRun, List.replicate_succ]
    simpa [meshMonitorStep] using ih (meshMonitorStep t0 s t)

theorem meshMonitorRun_snd_status (t0 : ℚ) (s : MeshJob) (polls : List ℚ) :
    ∀ x ∈ (meshMonitorRun t0 s polls).2, x.status = s.status := by
  intro x hx
  have hmem : x.status ∈ (meshMonitorRun t0 s polls).2.map MeshJob.status :=
    List.mem_map_of_mem MeshJob.status hx
  rw [meshMonitorRun_map_status t0 s polls] at hmem
  exact List.eq_of_mem_replicate hmem

theorem meshMonitorRun_cons_getLast? (t0 : ℚ) (s : MeshJob) (polls : List ℚ) :
    (s :: (meshMonitorRun t0 s polls).2).getLast? =
      some (meshMonitorRun t0 s polls).1 := by
  induction polls generalizing s with
  | nil => rfl
  | cons t rest ih =>
    have := ih (meshMonitorStep t0 s t)
    simpa [meshMonitorRun, List.getLast?] using this

/-- The mesh monitor's written value: at least 50 when the sampled time
is not before the start time. -/
theorem meshWrite_ge_50 (t0 t : ℚ) (h : t0 ≤ t) :
    (50 : Int) ≤ meshWriteVal t0 t := by
  unfold meshWriteVal
  have h0 : (0 : ℚ) ≤ (t - t0) / 10 := div_nonneg (by linarith) (by norm_num)
  have := pyInt_nonneg _ h0
  have : (50 : Int) ≤ 50 + pyInt ((t - t0) / 10) * 5 := by nlinarith
  omega

/-- The mesh monitor's written value is monotone in the sampled time. -/
theorem meshWrite_mono (t0 t t' : ℚ) (h : t0 ≤ t) (htt : t ≤ t') :
    meshWriteVal t0 t ≤ meshWriteVal t0 t' := by
  unfold meshWriteVal
  have h0 : (0 : ℚ) ≤ (t - t0) / 10 := div_nonneg (by linarith) (by norm_num)
  have hm : pyInt ((t - t0) / 10) ≤ pyInt ((t' - t0) / 10) :=
    pyInt_mono_nonneg _ _ h0 (by linarith)
  have : (50 : Int) + pyInt ((t - t0) / 10) * 5 ≤ 50 + pyInt ((t' - t0) / 10) * 5 := by
    nlinarith
  omega

theorem meshWrite_le_85 (t0 t : ℚ) : meshWriteVal t0 t ≤ 85 :=
  min_le_right _ _

theorem runSimulation_status_mem (s : CFDSim) (env : SimEnv) :
    ∀ x ∈ (runSimulation s env).2.1,
      x.status ∈ (["running", "post_processing", "completed", "failed"] : List String) := by
  intro x hx
  unfold runSimulation failPair at hx
  by_cases hc : env.checkMeshExit ≠ 0
  · simp only [if_pos hc] at hx
    simp at hx
    rcases hx with rfl | rfl | rfl | rfl | rfl | rfl <;> simp
  · simp only [if_neg hc] at hx
    have hr5 := (monitorRun_fst_fields s.config.simulation_time
      { s with status := "running", start_time := some env.t0, progress := 50 }
      env.polls).1
    have hmon := monitorRun_snd_status s.config.simulation_time
      { s with status := "running", start_time := some env.t0, progress := 50 }
      env.polls
    by_cases hs : env.solverExit ≠ 0
    · simp only [if_pos hs] at hx
      simp at hx
      rcases hx with rfl | rfl | rfl | rfl | rfl | hm | rfl | rfl
      · simp
      · simp
      · simp
      · simp
      · simp
      · have := hmon x hm
        simp at this
        simp [this]
      · simp at hr5
        simp [hr5]
      · simp
    · simp only [if_neg hs] at hx
      cases hp : env.postRaise with
      | some m =>
        rw [hp] at hx
        simp at hx
        rcases hx with rfl | rfl | rfl | rfl | rfl | hm | rfl | rfl | rfl | rfl
        · simp
        · simp
        · simp
        · simp
        · simp
        · have := hmon x hm
          simp at this
          simp [this]
        · simp at hr5
          simp [hr5]
        · simp
        · simp
        · simp
      | none =>
        rw [hp] at hx
        simp at hx
        rcases hx with rfl | rfl | rfl | rfl | rfl | hm | rfl | rfl | rfl | rfl | rfl
        · simp
        · simp
        · simp
        · simp
        · simp
        · have := hmon x hm
          simp at this
          simp [this]
        · simp at hr5
          simp [hr5]
        · simp
        · simp
        · simp
        · simp

theorem setupCase_status_mem (s : CFDSim) (env : SimEnv) :
    ∀ x ∈ (setupCase s env).2.1,
      x.status ∈ (["setting_up", "failed"] : List String) := by
  intro x hx
  unfold setupCase failPair at hx
  cases hr : env.setupRaise with
  | some m =>
    rw [hr] at hx
    simp at hx
    rcases hx with rfl | rfl | rfl <;> simp
  | none =>
    rw [hr] at hx
    cases hco : setupCopyOutcome s.config env with
    | some m =>
      rw [hco] at hx
      simp at hx
      rcases hx with rfl | rfl | rfl <;> simp
    | none =>
      rw [hco] at hx
      simp at hx
      rcases hx with rfl | rfl <;> simp

theorem setupCase_ok (s : CFDSim) (env : SimEnv)
    (h : (setupCase s env).2.2 = true) :
    env.setupRaise = none ∧ setupCopyOutcome s.config env = none ∧
    (setupCase s env).1 = { s with status := "setting_up", progress := 20 } ∧
    (setupCase s env).2.1 =
      [{ s with status := "setting_up" },
       { s with status := "setting_up", progress := 20 }] := by
  unfold setupCase failPair at h ⊢
  cases hr : env.setupRaise with
  | some m => simp [hr] at h
  | none =>
    cases hco : setupCopyOutcome s.config env with
    | some m => simp [hr, hco] at h
    | none => simp [hr, hco]

theorem setupCase_failed (s : CFDSim) (env : SimEnv)
    (h : (setupCase s env).2.2 = false) :
    ∃ m, ((env.setupRaise = some m) ∨
          (env.setupRaise = none ∧ setupCopyOutcome s.config env = some m)) ∧
    (setupCase s env).1 =
      { s with status := "failed", error := some ("Setup failed: " ++ m) } ∧
    (setupCase s env).2.1 =
      [{ s with status := "setting_up" },
       { s with status := "setting_up", error := some ("Setup failed: " ++ m) },
       { s with status := "failed", error := some ("Setup failed: " ++ m) }] := by
  unfold setupCase failPair at h ⊢
  cases hr : env.setupRaise with
  | some m =>
    refine ⟨m, Or.inl rfl, ?_, ?_⟩ <;> simp [hr]
  | none =>
    cases hco : setupCopyOutcome s.config env with
    | some m =>
      refine ⟨m, Or.inr ⟨rfl, rfl⟩, ?_, ?_⟩ <;> simp [hr, hco]
    | none => simp [hr, hco] at h

theorem runSimulationThread_status_mem (simulationId : String)
    (config : SimConfig) (env : SimEnv) :
    ∀ x ∈ (runSimulationThread simulationId config env).trace,
      x.status ∈ allowedStatuses := by
  intro x hx
  unfold runSimulationThread at hx
  by_cases hok : (setupCase (CFDSim.init simulationId config) env).2.2 = true
  · rw [if_pos hok] at hx
    rcases List.mem_cons.mp hx with rfl | hx'
    · simp [CFDSim.init, allowedStatuses]
    rcases List.mem_append.mp hx' with hx | hx
    · have := setupCase_status_mem (CFDSim.init simulationId config) env x hx
      simp [allowedStatuses]
      simp at this
      tauto
    · have := runSimulation_status_mem (setupCase (CFDSim.init simulationId config) env).1 env x hx
      simp [allowedStatuses]
      simp at this
      tauto
  · rw [if_neg hok] at hx
    simp only [List.mem_cons] at hx
    rcases hx with rfl | hx
    · simp [CFDSim.init, allowedStatuses]
    · have := setupCase_status_mem (CFDSim.init simulationId config) env x hx
      simp [allowedStatuses]
      simp at this
      tauto

theorem runSimulation_failed_final (s : CFDSim) (env : SimEnv) :
    ∀ x ∈ (runSimulation s env).2.1, x.status = "failed" →
      x = (runSimulation s env).1 := by
  intro x hx hfail
  unfold runSimulation failPair at hx ⊢
  by_cases hc : env.checkMeshExit ≠ 0
  · simp only [if_pos hc] at hx ⊢
    simp at hx
    rcases hx with rfl | rfl | rfl | rfl | rfl | rfl <;> simp_all
  · simp only [if_neg hc] at hx ⊢
    have hr5 := (monitorRun_fst_fields s.config.simulation_time
      { s with status := "running", start_time := some env.t0, progress := 50 }
      env.polls).1
    have hmon := monitorRun_snd_status s.config.simulation_time
      { s with status := "running", start_time := some env.t0, progress := 50 }
      env.polls
    by_cases hs : env.solverExit ≠ 0
    · simp only [if_pos hs] at hx ⊢
      simp at hx
      rcases hx with rfl | rfl | rfl | rfl | rfl | hm | rfl | rfl
      · simp_all
      · simp_all
      · simp_all
      · simp_all
      · simp_all
      · have := hmon x hm
        simp at this
        rw [this] at hfail
        simp at hfail
      · simp at hr5
        rw [show ∀ (a : CFDSim) (e : Option String),
            ({ a with error := e } : CFDSim).status = a.status from fun a e => rfl] at hfail
        rw [hr5] at hfail
        simp at hfail
      · rfl
    · simp only [if_neg hs] at hx ⊢
      cases hp : env.postRaise with
      | some m =>
        simp only [hp] at hx ⊢
        simp at hx
        rcases hx with rfl | rfl | rfl | rfl | rfl | hm | rfl | rfl | rfl | rfl
        · simp_all
        · simp_all
        · simp_all
        · simp_all
        · simp_all
        · have := hmon x hm
          simp at this
          rw [this] at hfail
          simp at hfail
        · simp at hr5
          rw [show ∀ (a : CFDSim) (p : Int),
              ({ a with progress := p } : CFDSim).status = a.status from fun a p => rfl] at hfail
          rw [hr5] at hfail
          simp at hfail
        · simp_all
        · simp_all
        · rfl
      | none =>
        simp only [hp] at hx ⊢
        simp at hx
        rcases hx with rfl | rfl | rfl | rfl | rfl | hm | rfl | rfl | rfl | rfl | rfl
        · simp_all
        · simp_all
        · simp_all
        · simp_all
        · simp_all
        · have := hmon x hm
          simp at this
          rw [this] at hfail
          simp at hfail
        · simp at hr5
          rw [show ∀ (a : CFDSim) (p : Int),
              ({ a with progress := p } : CFDSim).status = a.status from fun a p => rfl] at hfail
          rw [hr5] at hfail
          simp at hfail
        · simp_all
        · simp_all
        · simp_all
        · simp_all

theorem runSimulation_completed_fields (s : CFDSim) (env : SimEnv) :
    ∀ x ∈ (runSimulation s env).2.1, x.status = "completed" →
      x.error = (runSimulation s env).1.error ∧
      x.progress = (runSimulation s env).1.progress ∧
      (runSimulation s env).1.status = "completed" := by
  intro x hx hdone
  unfold runSimulation failPair at hx ⊢
  by_cases hc : env.checkMeshExit ≠ 0
  · simp only [if_pos hc] at hx ⊢
    simp at hx
    rcases hx with rfl | rfl | rfl | rfl | rfl | rfl <;> simp_all
  · simp only [if_neg hc] at hx ⊢
    have hr5 := (monitorRun_fst_fields s.config.simulation_time
      { s with status := "running", start_time := some env.t0, progress := 50 }
      env.polls).1
    have hmon := monitorRun_snd_status s.config.simulation_time
      { s with status := "running", start_time := some env.t0, progress := 50 }
      env.polls
    by_cases hs : env.solverExit ≠ 0
    · simp only [if_pos hs] at hx ⊢
      simp at hx
      rcases hx with rfl | rfl | rfl | rfl | rfl | hm | rfl | rfl
      · simp_all
      · simp_all
      · simp_all
      · simp_all
      · simp_all
      · have := hmon x hm
        simp at this
        rw [this] at hdone
        simp at hdone
      · simp at hr5
        rw [show ∀ (a : CFDSim) (e : Option String),
            ({ a with error := e } : CFDSim).status = a.status from fun a e => rfl] at hdone
        rw [hr5] at hdone
        simp at hdone
      · simp_all
    · simp only [if_neg hs] at hx ⊢
      cases hp : env.postRaise with
      | some m =>
        simp only [hp] at hx ⊢
        simp at hx
        rcases hx with rfl | rfl | rfl | rfl | rfl | hm | rfl | rfl | rfl | rfl
        · simp_all
        · simp_all
        · simp_all
        · simp_all
        · simp_all
        · have := hmon x hm
          simp at this
          rw [this] at hdone
          simp at hdone
        · simp at hr5
          rw [show ∀ (a : CFDSim) (p : Int),
              ({ a with progress := p } : CFDSim).status = a.status from fun a p => rfl] at hdone
          rw [hr5] at hdone
          simp at hdone
        · simp_all
        · simp_all
        · simp_all
      | none =>
        simp only [hp] at hx ⊢
        simp at hx
        rcases hx with rfl | rfl | rfl | rfl | rfl | hm | rfl | rfl | rfl | rfl | rfl
        · simp_all
        · simp_all
        · simp_all
        · simp_all
        · simp_all
        · have := hmon x hm
          simp at this
          rw [this] at hdone
          simp at hdone
        · simp at hr5
          rw [show ∀ (a : CFDSim) (p : Int),
              ({ a with progress := p } : CFDSim).status = a.status from fun a p => rfl] at hdone
          rw [hr5] at hdone
          simp at hdone
        · simp_all
        · simp_all
        · simp
        · simp

theorem runSimulationThread_final_trace (simulationId : String)
    (config : SimConfig) (env : SimEnv) :
    (runSimulationThread simulationId config env).final =
      (if (setupCase (CFDSim.init simulationId config) env).2.2 then
        (runSimulation (setupCase (CFDSim.init simulationId config) env).1 env).1
       else (setupCase (CFDSim.init simulationId config) env).1) := by
  unfold runSimulationThread
  by_cases hok : (setupCase (CFDSim.init simulationId config) env).2.2 = true
  · rw [if_pos hok, if_pos hok]
  · rw [if_neg hok, if_neg hok]

theorem runSimulationThread_failed_final (simulationId : String)
    (config : SimConfig) (env : SimEnv) :
    ∀ x ∈ (runSimulationThread simulationId config env).trace,
      x.status = "failed" →
      x = (runSimulationThread simulationId config env).final := by
  intro x hx hfail
  unfold runSimulationThread at hx ⊢
  by_cases hok : (setupCase (CFDSim.init simulationId config) env).2.2 = true
  · rw [if_pos hok] at hx ⊢
    rcases List.mem_cons.mp hx with rfl | hx'
    · simp [CFDSim.init] at hfail
    rcases List.mem_append.mp hx' with hxs | hxr
    · obtain ⟨_, _, _, htr⟩ := setupCase_ok (CFDSim.init simulationId config) env hok
      rw [htr] at hxs
      simp at hxs
      rcases hxs with rfl | rfl <;> simp at hfail
    · exact runSimulation_failed_final _ env x hxr hfail
  · rw [if_neg hok] at hx ⊢
    rcases List.mem_cons.mp hx with rfl | hx'
    · simp [CFDSim.init] at hfail
    obtain ⟨m, _, hfin, htr⟩ :=
      setupCase_failed (CFDSim.init simulationId config) env (by simpa using hok)
    rw [htr] at hx'
    rw [hfin]
    simp at hx'
    rcases hx' with rfl | rfl | rfl
    · simp [CFDSim.init] at hfail
    · simp [CFDSim.init] at hfail
    · rfl

theorem runSimulationThread_completed_fields (simulationId : String)
    (config : SimConfig) (env : SimEnv) :
    ∀ x ∈ (runSimulationThread simulationId config env).trace,
      x.status = "completed" →
      x.error = (runSimulationThread simulationId config env).final.error ∧
      x.progress = (runSimulationThread simulationId config env).final.progress ∧
      (runSimulationThread simulationId config env).final.status = "completed" := by
  intro x hx hdone
  unfold runSimulationThread at hx ⊢
  by_cases hok : (setupCase (CFDSim.init simulationId config) env).2.2 = true
  · rw [if_pos hok] at hx ⊢
    rcases List.mem_cons.mp hx with rfl | hx'
    · simp [CFDSim.init] at hdone
    rcases List.mem_append.mp hx' with hxs | hxr
    · obtain ⟨_, _, _, htr⟩ := setupCase_ok (CFDSim.init simulationId config) env hok
      rw [htr] at hxs
      simp at hxs
      rcases hxs with rfl | rfl <;> simp at hdone
    · exact runSimulation_completed_fields _ env x hxr hdone
  · rw [if_neg hok] at hx ⊢
    rcases List.mem_cons.mp hx with rfl | hx'
    · simp [CFDSim.init] at hdone
    obtain ⟨m, _, hfin, htr⟩ :=
      setupCase_failed (CFDSim.init simulationId config) env (by simpa using hok)
    rw [htr] at hx'
    simp at hx'
    rcases hx' with rfl | rfl | rfl <;> simp at hdone

theorem meshSetup_status_mem (s : MeshJob) (env : MeshEnv) :
    ∀ x ∈ (meshSetup s env).2.1,
      x.status ∈ (["setting_up", "failed"] : List String) := by
  intro x hx
  unfold meshSetup meshFailPair at hx
  cases ho : meshSetupOutcome env with
  | some m =>
    simp [ho] at hx
    rcases hx with rfl | rfl | rfl <;> simp
  | none =>
    simp [ho] at hx
    rcases hx with rfl | rfl <;> simp

theorem meshSetup_ok (s : MeshJob) (env : MeshEnv)
    (h : (meshSetup s env).2.2 = true) :
    meshSetupOutcome env = none ∧
    (meshSetup s env).1 = { s with status := "setting_up", progress := 20 } ∧
    (meshSetup s env).2.1 =
      [{ s with status := "setting_up" },
       { s with status := "setting_up", progress := 20 }] := by
  unfold meshSetup meshFailPair at h ⊢
  cases ho : meshSetupOutcome env with
  | some m => simp [ho] at h
  | none => simp [ho]

theorem meshSetup_failed (s : MeshJob) (env : MeshEnv)
    (h : (meshSetup s env).2.2 = false) :
    ∃ m, meshSetupOutcome env = some m ∧
    (meshSetup s env).1 =
      { s with status := "failed", error := some ("Setup failed: " ++ m) } ∧
    (meshSetup s env).2.1 =
      [{ s with status := "setting_up" },
       { s with status := "setting_up", error := some ("Setup failed: " ++ m) },
       { s with status := "failed", error := some ("Setup failed: " ++ m) }] := by
  unfold meshSetup meshFailPair at h ⊢
  cases ho : meshSetupOutcome env with
  | some m => exact ⟨m, rfl, by simp [ho], by simp [ho]⟩
  | none => simp [ho] at h

theorem meshGenerate_status_mem (s : MeshJob) (env : MeshEnv) :
    ∀ x ∈ (s.generateMesh env).2,
      x.status ∈ (["generating", "completed", "failed"] : List String) := by
  intro x hx
  unfold MeshJob.generateMesh meshFailPair at hx
  have hr5 := (meshMonitorRun_fst_fields env.t0
    { s with status := "generating", start_time := some env.t0, progress := 50 }
    env.snappyPolls).1
  have hmon := meshMonitorRun_snd_status env.t0
    { s with status := "generating", start_time := some env.t0, progress := 50 }
    env.snappyPolls
  cases hb : env.blockMeshRaise with
  | some m =>
    simp [hb] at hx
    rcases hx with rfl | rfl | rfl | rfl | rfl <;> simp
  | none =>
    simp only [hb] at hx
    cases hf : env.featureRaise with
    | some m =>
      simp [hf] at hx
      rcases hx with rfl | rfl | rfl | rfl | rfl | rfl <;> simp
    | none =>
      simp only [hf] at hx
      by_cases hse : env.snappyExit ≠ 0
      · simp only [if_pos hse] at hx
        simp at hx
        rcases hx with rfl | rfl | rfl | rfl | rfl | hm | rfl | rfl
        · simp
        · simp
        · simp
        · simp
        · simp
        · have := hmon x hm
          simp at this
          simp [this]
        · simp at hr5
          simp [hr5]
        · simp
      · simp only [if_neg hse] at hx
        cases hcp : env.copyRaise with
        | some m =>
          simp only [hcp] at hx
          simp at hx
          rcases hx with rfl | rfl | rfl | rfl | rfl | hm | rfl | rfl | rfl
          · simp
          · simp
          · simp
          · simp
          · simp
          · have := hmon x hm
            simp at this
            simp [this]
          · simp at hr5
            simp [hr5]
          · simp [hr5]
          · simp
        | none =>
          simp only [hcp] at hx
          simp at hx
          rcases hx with rfl | rfl | rfl | rfl | rfl | hm | rfl | rfl | rfl | rfl
          · simp
          · simp
          · simp
          · simp
          · simp
          · have := hmon x hm
            simp at this
            simp [this]
          · simp at hr5
            simp [hr5]
          · simp [hr5]
          · simp
          · simp

theorem runMeshThread_status_mem (jobId geometryFile : String)
    (config : MeshConfig) (env : MeshEnv) :
    ∀ x ∈ (runMeshThread jobId geometryFile config env).trace,
      x.status ∈ (["queued", "setting_up", "generating", "completed", "failed"] :
        List String) := by
  intro x hx
  unfold runMeshThread at hx
  by_cases hok : (meshSetup (MeshJob.init jobId geometryFile config) env).2.2 = true
  · rw [if_pos hok] at hx
    rcases List.mem_cons.mp hx with rfl | hx'
    · simp [MeshJob.init]
    rcases List.mem_append.mp hx' with hxs | hxr
    · have := meshSetup_status_mem (MeshJob.init jobId geometryFile config) env x hxs
      simp at this ⊢
      tauto
    · have := meshGenerate_status_mem _ env x hxr
      simp at this ⊢
      tauto
  · rw [if_neg hok] at hx
    rcases List.mem_cons.mp hx with rfl | hx'
    · simp [MeshJob.init]
    · have := meshSetup_status_mem (MeshJob.init jobId geometryFile config) env x hx'
      simp at this ⊢
      tauto

theorem runSimulation_map_status_ok (s : CFDSim) (env : SimEnv)
    (hc : env.checkMeshExit = 0) (hs : env.solverExit = 0)
    (hp : env.postRaise = none) :
    (runSimulation s env).2.1.map CFDSim.status =
      "running" :: "running" :: "running" :: "running" :: "running" ::
      (List.replicate env.polls.length "running" ++
        ["running", "post_processing", "post_processing", "completed",
         "completed"]) := by
  have h6 := (monitorRun_fst_fields s.config.simulation_time
    { s with status := "running", start_time := some env.t0, progress := 50 }
    env.polls).1
  unfold runSimulation
  simp only [hc, hs, hp, ne_eq, not_true_eq_false, if_false, ite_false,
    not_false_eq_true, if_true]
  simp [List.map_append, monitorRun_map_status, h6]

theorem runSimulationThread_map_status_ok (simulationId : String)
    (config : SimConfig) (env : SimEnv)
    (hok : (setupCase (CFDSim.init simulationId config) env).2.2 = true)
    (hc : env.checkMeshExit = 0) (hs : env.solverExit = 0)
    (hp : env.postRaise = none) :
    (runSimulationThread simulationId config env).trace.map CFDSim.status =
      "queued" :: "setting_up" :: "setting_up" :: "running" :: "running" ::
      "running" :: "running" :: "running" ::
      (List.replicate env.polls.length "running" ++
        ["running", "post_processing", "post_processing", "completed",
         "completed"]) := by
  obtain ⟨_, _, hfin, htr⟩ := setupCase_ok (CFDSim.init simulationId config) env hok
  unfold runSimulationThread
  rw [if_pos hok]
  simp only [List.map_cons, List.map_append, htr, hfin]
  rw [runSimulation_map_status_ok _ env hc hs hp]
  simp [CFDSim.init]

theorem collapse_sim_success (n : Nat) :
    collapse ("queued" :: "setting_up" :: "setting_up" :: "running" ::
      "running" :: "running" :: "running" :: "running" ::
      (List.replicate n "running" ++
        ["running", "post_processing", "post_processing", "completed",
         "completed"])) =
      ["queued", "setting_up", "running", "post_processing", "completed"] := by
  rw [collapse_pair _ _ _ (by decide), collapse_dup,
    collapse_pair _ _ _ (by decide), collapse_dup, collapse_dup, collapse_dup,
    collapse_dup]
  rw [show (["running", "post_processing", "post_processing", "completed",
      "completed"] : List String) =
      "running" :: ["post_processing", "post_processing", "completed",
      "completed"] from rfl]
  rw [replicate_append_cons_same]
  rw [show ("running" :: (List.replicate (n + 1) "running" ++
      ["post_processing", "post_processing", "completed", "completed"])) =
      (List.replicate (n + 2) "running" ++
      ["post_processing", "post_processing", "completed", "completed"]) from by
    simp [List.replicate_succ, List.cons_append]]
  rw [collapse_replicate_cons _ _ _ _ (by decide)]
  rw [collapse_dup, collapse_pair _ _ _ (by decide), collapse_dup]
  rfl

theorem meshGenerate_map_status_ok (s : MeshJob) (env : MeshEnv)
    (hb : env.blockMeshRaise = none) (hf : env.featureRaise = none)
    (hse : env.snappyExit = 0) (hcp : env.copyRaise = none) :
    (s.generateMesh env).2.map MeshJob.status =
      "generating" :: "generating" :: "generating" :: "generating" ::
      "generating" ::
      (List.replicate env.snappyPolls.length "generating" ++
        ["generating", "generating", "completed", "completed"]) := by
  have h6 := (meshMonitorRun_fst_fields env.t0
    { s with status := "generating", start_time := some env.t0, progress := 50 }
    env.snappyPolls).1
  unfold MeshJob.generateMesh
  simp only [hb, hf, hse, hcp, ne_eq, not_true_eq_false, if_false, ite_false,
    not_false_eq_true, if_true]
  simp [List.map_append, meshMonitorRun_map_status, h6]

theorem runMeshThread_map_status_ok (jobId geometryFile : String)
    (config : MeshConfig) (env : MeshEnv)
    (hok : (meshSetup (MeshJob.init jobId geometryFile config) env).2.2 = true)
    (hb : env.blockMeshRaise = none) (hf : env.featureRaise = none)
    (hse : env.snappyExit = 0) (hcp : env.copyRaise = none) :
    (runMeshThread jobId geometryFile config env).trace.map MeshJob.status =
      "queued" :: "setting_up" :: "setting_up" :: "generating" ::
      "generating" :: "generating" :: "generating" :: "generating" ::
      (List.replicate env.snappyPolls.length "generating" ++
        ["generating", "generating", "completed", "completed"]) := by
  obtain ⟨_, hfin, htr⟩ := meshSetup_ok (MeshJob.init jobId geometryFile config) env hok
  unfold runMeshThread
  rw [if_pos hok]
  simp only [List.map_cons, List.map_append, htr, hfin]
  rw [meshGenerate_map_status_ok _ env hb hf hse hcp]
  simp [MeshJob.init]

theorem collapse_mesh_success (n : Nat) :
    collapse ("queued" :: "setting_up" :: "setting_up" :: "generating" ::
      "generating" :: "generating" :: "generating" :: "generating" ::
      (List.replicate n "generating" ++
        ["generating", "generating", "completed", "completed"])) =
      ["queued", "setting_up", "generating", "completed"] := by
  rw [collapse_pair _ _ _ (by decide), collapse_dup,
    collapse_pair _ _ _ (by decide), collapse_dup, collapse_dup, collapse_dup,
    collapse_dup]
  rw [show (["generating", "generating", "completed", "completed"] :
      List String) =
      "generating" :: ("generating" :: ["completed", "completed"]) from rfl]
  rw [replicate_append_cons_same]
  rw [show (List.replicate (n + 1) "generating" ++
      ("generating" :: ["completed", "completed"])) =
      (List.replicate (n + 2) "generating" ++ ["completed", "completed"]) from by
    rw [replicate_append_cons_same]]
  rw [show ("generating" :: (List.replicate (n + 2) "generating" ++
      ["completed", "completed"])) =
      (List.replicate (n + 3) "generating" ++ ["completed", "completed"]) from by
    simp [List.replicate_succ, List.cons_append]]
  rw [collapse_replicate_cons _ _ _ _ (by decide)]
  rw [collapse_dup]
  rfl

/-! ## Claims -/

/-- C1 (counterexample): the claim says every job of either kind only
takes statuses from
`{queued, setting_up, running, post_processing, completed, failed,
cancelled}`, but a successfully completing mesh-generation job passes
through status `"generating"` (`mesh-server.py` line 379), which is not
in that set, and skips both `running` and `post_processing`. -/
theorem claim_C1_counterexample :
    "generating" ∈ (runMeshThread "job1" "box.stl" MeshConfig.empty
      { geometrySuffix := ".stl", dirRaise := none, loadRaise := none,
        writeRaise := none, t0 := 0, blockMeshRaise := none,
        featureRaise := none, snappyPolls := [], snappyExit := 0,
        copyRaise := none, t1 := 1 }).trace.map MeshJob.status ∧
    "generating" ∉ allowedStatuses := by
  constructor
  · decide
  · decide

/-- C1 (amended): simulation jobs only ever take statuses from the
seven-element set, and a successfully completing simulation passes
through `queued, setting_up, running, post_processing, completed` in
exactly that order with no state skipped; mesh-generation jobs instead
use the status `"generating"` in place of both `running` and
`post_processing`, so their statuses lie in
`{queued, setting_up, generating, completed, failed}` and a successful
mesh job passes through `queued, setting_up, generating, completed` in
that order. -/
theorem claim_C1_amended (simulationId : String) (config : SimConfig)
    (env : SimEnv) (jobId geometryFile : String) (mcfg : MeshConfig)
    (menv : MeshEnv) :
    (∀ x ∈ (runSimulationThread simulationId config env).trace,
        x.status ∈ allowedStatuses) ∧
    (∀ x ∈ (runMeshThread jobId geometryFile mcfg menv).trace,
        x.status ∈ (["queued", "setting_up", "generating", "completed",
          "failed"] : List String)) ∧
    ((setupCase (CFDSim.init simulationId config) env).2.2 = true →
      env.checkMeshExit = 0 → env.solverExit = 0 → env.postRaise = none →
      collapse ((runSimulationThread simulationId config env).trace.map
        CFDSim.status) =
        ["queued", "setting_up", "running", "post_processing", "completed"]) ∧
    ((meshSetup (MeshJob.init jobId geometryFile mcfg) menv).2.2 = true →
      menv.blockMeshRaise = none → menv.featureRaise = none →
      menv.snappyExit = 0 → menv.copyRaise = none →
      collapse ((runMeshThread jobId geometryFile mcfg menv).trace.map
        MeshJob.status) =
        ["queued", "setting_up", "generating", "completed"]) := by
  refine ⟨runSimulationThread_status_mem simulationId config env,
    runMeshThread_status_mem jobId geometryFile mcfg menv, ?_, ?_⟩
  · intro hok hc hs hp
    rw [runSimulationThread_map_status_ok simulationId config env hok hc hs hp]
    exact collapse_sim_success env.polls.length
  · intro hok hb hf hse hcp
    rw [runMeshThread_map_status_ok jobId geometryFile mcfg menv hok hb hf hse hcp]
    exact collapse_mesh_success menv.snappyPolls.length

/-- C1 (witness): a concrete successful run of each kind. -/
theorem claim_C1_witness :
    collapse ((runSimulationThread "sim1"
      { wind_speed := some 10, mesh_id := none, simulation_time := none,
        turbulence_model := none }
      { setupRaise := none, meshDirExists := false, copyRaise := none,
        t0 := 0, checkMeshExit := 0, polls := [], solverExit := 0,
        postRaise := none, caseEntries := [], fieldsPresent := [],
        t1 := 1 }).trace.map CFDSim.status) =
      ["queued", "setting_up", "running", "post_processing", "completed"] ∧
    collapse ((runMeshThread "job1" "box.stl" MeshConfig.empty
      { geometrySuffix := ".stl", dirRaise := none, loadRaise := none,
        writeRaise := none, t0 := 0, blockMeshRaise := none,
        featureRaise := none, snappyPolls := [], snappyExit := 0,
        copyRaise := none, t1 := 1 }).trace.map MeshJob.status) =
      ["queued", "setting_up", "generating", "completed"] := by
  have h := claim_C1_amended "sim1"
    { wind_speed := some 10, mesh_id := none, simulation_time := none,
      turbulence_model := none }
    { setupRaise := none, meshDirExists := false, copyRaise := none,
      t0 := 0, checkMeshExit := 0, polls := [], solverExit := 0,
      postRaise := none, caseEntries := [], fieldsPresent := [], t1 := 1 }
    "job1" "box.stl" MeshConfig.empty
    { geometrySuffix := ".stl", dirRaise := none, loadRaise := none,
      writeRaise := none, t0 := 0, blockMeshRaise := none,
      featureRaise := none, snappyPolls := [], snappyExit := 0,
      copyRaise := none, t1 := 1 }
  exact ⟨h.2.2.1 (by decide) rfl rfl rfl, h.2.2.2 (by decide) rfl rfl rfl rfl⟩

/-- C2 (counterexample): terminal statuses are not immutable.  A cancel
request on a job that has already completed overwrites its status:
`cancel_simulation` (`cfd-server.py` line 828) assigns
`simulation.status = "cancelled"` with no check of the current
status. -/
theorem claim_C2_counterexample :
    (⟨"sim1", ⟨some 10, none, none, none⟩, "completed", 100, none,
      some 0, some 5⟩ : CFDSim).status = "completed" ∧
    ((cancelSimulation [("sim1",
      (⟨"sim1", ⟨some 10, none, none, none⟩, "completed", 100, none,
        some 0, some 5⟩ : CFDSim))] "sim1").2.lookup "sim1").map
      CFDSim.status = some "cancelled" := by
  constructor
  · rfl
  · decide

/-- C2 (amended): status polling never mutates any record.  The runner
thread itself never writes again after reaching `failed` (every trace
snapshot with status `failed` already equals the final state), and
after writing `completed` it changes only `end_time` (every snapshot
with status `completed` agrees with the final state on `error`,
`progress` and `status`; `end_time` is written once afterwards, so a
poll can observe `completed` with `end_time` still unset).  However, a
cancel request unconditionally rewrites the status to `cancelled` even
when the job is already in a terminal state, leaving the other fields
unchanged. -/
theorem claim_C2_amended (reg : SimRegistry) (simulationId : String)
    (now : ℚ) (s : CFDSim) (jid : String) (config : SimConfig)
    (env : SimEnv) :
    ((getSimulationStatusHandler reg simulationId now).2 = reg) ∧
    (reg.lookup simulationId = some s →
      cancelSimulation reg simulationId =
        (.cancelledOk, regSet reg simulationId { s with status := "cancelled" })) ∧
    (∀ x ∈ (runSimulationThread jid config env).trace,
      x.status = "failed" →
      x = (runSimulationThread jid config env).final) ∧
    (∀ x ∈ (runSimulationThread jid config env).trace,
      x.status = "completed" →
      x.error = (runSimulationThread jid config env).final.error ∧
      x.progress = (runSimulationThread jid config env).final.progress ∧
      (runSimulationThread jid config env).final.status = "completed") := by
  refine ⟨?_, ?_, runSimulationThread_failed_final jid config env,
    runSimulationThread_completed_fields jid config env⟩
  · unfold getSimulationStatusHandler
    cases reg.lookup simulationId <;> rfl
  · intro h
    unfold cancelSimulation
    rw [h]

/-- C2 (witness): a concrete registry and job run. -/
theorem claim_C2_witness :
    (getSimulationStatusHandler [("sim1", CFDSim.init "sim1"
      { wind_speed := some 10, mesh_id := none, simulation_time := none,
        turbulence_model := none })] "sim1" 7).2 =
      [("sim1", CFDSim.init "sim1"
        { wind_speed := some 10, mesh_id := none, simulation_time := none,
          turbulence_model := none })] ∧
    cancelSimulation [("sim1", CFDSim.init "sim1"
      { wind_speed := some 10, mesh_id := none, simulation_time := none,
        turbulence_model := none })] "sim1" =
      (.cancelledOk, regSet [("sim1", CFDSim.init "sim1"
        { wind_speed := some 10, mesh_id := none, simulation_time := none,
          turbulence_model := none })] "sim1"
        { CFDSim.init "sim1"
          { wind_speed := some 10, mesh_id := none, simulation_time := none,
            turbulence_model := none } with status := "cancelled" }) := by
  have h := claim_C2_amended [("sim1", CFDSim.init "sim1"
    { wind_speed := some 10, mesh_id := none, simulation_time := none,
      turbulence_model := none })] "sim1" 7
    (CFDSim.init "sim1"
      { wind_speed := some 10, mesh_id := none, simulation_time := none,
        turbulence_model := none })
    "sim1"
    { wind_speed := some 10, mesh_id := none, simulation_time := none,
      turbulence_model := none }
    { setupRaise := none, meshDirExists := false, copyRaise := none,
      t0 := 0, checkMeshExit := 0, polls := [], solverExit := 0,
      postRaise := none, caseEntries := [], fieldsPresent := [], t1 := 1 }
  exact ⟨h.1, h.2.1 (by decide)⟩

theorem monitorRun_all_50 (t : Option ℚ) (s : CFDSim)
    (polls : List (Option (List LogLine)))
    (hm : ∀ l ∈ polls, ∀ lines, l = some lines → ∀ v ∈ logMarkers lines, 0 ≤ v)
    (ht : 0 < t.getD 1000) :
    (monitorRun t s polls).2 =
      List.replicate polls.length { s with progress := 50 } ∧
    (monitorRun t s polls).1 =
      (if polls.isEmpty then s else { s with progress := 50 }) := by
  induction polls generalizing s with
  | nil => exact ⟨rfl, rfl⟩
  | cons l rest ih =>
    have hw : monitorStep t s l = { s with progress := 50 } := by
      unfold monitorStep
      rw [monitor_write_eq_50 l t (fun lines hl => hm l (List.mem_cons_self l rest) lines hl) ht]
    obtain ⟨h2, h1⟩ := ih { s with progress := 50 }
      (fun l' hl' => hm l' (List.mem_cons_of_mem l hl'))
    constructor
    · simp [monitorRun, hw, h2, List.replicate_succ]
    · simp only [monitorRun, hw, h1]
      cases rest <;> simp

theorem chain'_le_glue (A B : List Int) (n : Nat) (c : Int)
    (hA : List.Chain' (· ≤ ·) A)
    (hB : List.Chain' (· ≤ ·) B)
    (hAc : ∀ a ∈ A.getLast?, a ≤ c)
    (hcB : ∀ b ∈ B.head?, c ≤ b) :
    List.Chain' (· ≤ ·) (A ++ (List.replicate n c ++ B)) := by
  apply List.chain'_append.mpr
  refine ⟨hA, ?_, ?_⟩
  · apply List.chain'_append.mpr
    refine ⟨chain'_le_replicate n c, hB, ?_⟩
    intro x hx y hy
    have hxc : x = c :=
      List.eq_of_mem_replicate (List.mem_of_mem_getLast? hx)
    subst hxc
    exact hcB y hy
  · intro a ha y hy
    cases n with
    | zero =>
      simp at hy
      exact le_trans (hAc a ha) (hcB y hy)
    | succ k =>
      have : y = c := by
        rw [List.replicate_succ] at hy
        simp at hy
        exact hy.symm
      subst this
      exact hAc a ha

theorem runSimulationThread_progress_chain (simulationId : String)
    (config : SimConfig) (env : SimEnv)
    (hm : ∀ l ∈ env.polls, ∀ lines, l = some lines → ∀ v ∈ logMarkers lines, 0 ≤ v)
    (ht : 0 < config.simulation_time.getD 1000) :
    List.Chain' (· ≤ ·)
      ((runSimulationThread simulationId config env).trace.map CFDSim.progress) := by
  unfold runSimulationThread
  by_cases hok : (setupCase (CFDSim.init simulationId config) env).2.2 = true
  case neg =>
    rw [if_neg hok]
    obtain ⟨m, _, hfin, htr⟩ := setupCase_failed _ env (by simpa using hok)
    simp only [htr]
    simp [CFDSim.init, List.chain'_cons]
  case pos =>
    rw [if_pos hok]
    obtain ⟨_, _, hfin, htr⟩ := setupCase_ok _ env hok
    simp only [htr, hfin]
    unfold runSimulation failPair
    obtain ⟨hmon2, hmon1⟩ := monitorRun_all_50 config.simulation_time
      { CFDSim.init simulationId config with
        status := "running"
        start_time := some env.t0
        progress := 50 } env.polls hm ht
    simp only [CFDSim.init] at hmon2 hmon1
    by_cases hc : env.checkMeshExit ≠ 0
    · simp [if_pos hc, CFDSim.init, List.chain'_cons]
    · simp only [if_neg hc, ite_false, ite_true, not_false_eq_true]
      by_cases hs : env.solverExit ≠ 0
      · simp only [if_pos hs]
        cases hpolls : env.polls with
        | nil =>
          rw [hpolls] at hmon2 hmon1
          simp at hmon2 hmon1
          simp [CFDSim.init, hmon2, hmon1, List.chain'_cons]
        | cons p ps =>
          rw [hpolls] at hmon2 hmon1
          simp only [List.isEmpty_cons, ite_false, Bool.false_eq_true] at hmon1
          simp [CFDSim.init, hmon2, hmon1, List.map_append, List.map_replicate,
            List.chain'_cons]
          exact chain'_le_glue [50] [50, 50] (ps.length + 1) 50
            (by simp) (by simp [List.chain'_cons]) (by simp) (by simp)
      · simp only [if_neg hs]
        cases hp : env.postRaise with
        | some m =>
          simp only [hp]
          cases hpolls : env.polls with
          | nil =>
            rw [hpolls] at hmon2 hmon1
            simp at hmon2 hmon1
            simp [CFDSim.init, hmon2, hmon1, List.chain'_cons]
          | cons p ps =>
            rw [hpolls] at hmon2 hmon1
            simp only [List.isEmpty_cons, ite_false, Bool.false_eq_true] at hmon1
            simp [CFDSim.init, hmon2, hmon1, List.map_append, List.map_replicate,
              List.chain'_cons]
            exact chain'_le_glue [50] [90, 90, 90, 90] (ps.length + 1) 50
              (by simp) (by simp [List.chain'_cons]) (by simp)
              (by intro b hb; simp at hb; omega)
        | none =>
          simp only [hp]
          cases hpolls : env.polls with
          | nil =>
            rw [hpolls] at hmon2 hmon1
            simp at hmon2 hmon1
            simp [CFDSim.init, hmon2, hmon1, List.chain'_cons]
          | cons p ps =>
            rw [hpolls] at hmon2 hmon1
            simp only [List.isEmpty_cons, ite_false, Bool.false_eq_true] at hmon1
            simp [CFDSim.init, hmon2, hmon1, List.map_append, List.map_replicate,
              List.chain'_cons]
            exact chain'_le_glue [50] [90, 90, 100, 100, 100] (ps.length + 1) 50
              (by simp) (by simp [List.chain'_cons]) (by simp)
              (by intro b hb; simp at hb; omega)

theorem meshMonitorRun_fst_progress_le (t0 : ℚ) (s : MeshJob) (polls : List ℚ)
    (hb : s.progress ≤ 85) :
    (meshMonitorRun t0 s polls).1.progress ≤ 85 := by
  induction polls generalizing s with
  | nil => exact hb
  | cons t rest ih =>
    exact ih (meshMonitorStep t0 s t) (by simp [meshMonitorStep, meshWrite_le_85])

theorem meshMonitorRun_chain (t0 : ℚ) (s : MeshJob) (polls : List ℚ)
    (hts : ∀ t ∈ polls, t0 ≤ t) (hsort : List.Chain' (· ≤ ·) polls)
    (h0 : ∀ t ∈ polls.head?, s.progress ≤ meshWriteVal t0 t) :
    List.Chain' (· ≤ ·) ((s :: (meshMonitorRun t0 s polls).2).map MeshJob.progress) := by
  induction polls generalizing s with
  | nil => simp [meshMonitorRun]
  | cons t rest ih =>
    have hw : (meshMonitorStep t0 s t).progress = meshWriteVal t0 t := rfl
    have hchain := ih (meshMonitorStep t0 s t)
      (fun t' ht' => hts t' (List.mem_cons_of_mem t ht'))
      (List.Chain'.tail hsort)
      (by
        intro t' ht'
        rw [hw]
        cases rest with
        | nil => simp at ht'
        | cons u us =>
          simp at ht'
          rw [← ht']
          exact meshWrite_mono t0 t u (hts t (List.mem_cons_self t (u :: us)))
            (List.chain'_cons.mp (by simpa using hsort)).1)
    simp only [meshMonitorRun]
    rw [List.map_cons]
    apply List.chain'_cons.mpr
    constructor
    · rw [hw]
      exact h0 t rfl
    · simpa using hchain

theorem chain'_le_assemble (P M S : List Int) (hM0 : M ≠ [])
    (hP : List.Chain' (· ≤ ·) P)
    (hM : List.Chain' (· ≤ ·) M)
    (hS : List.Chain' (· ≤ ·) S)
    (hPM : ∀ a ∈ P.getLast?, ∀ b ∈ M.head?, a ≤ b)
    (hMS : ∀ a ∈ M.getLast?, ∀ b ∈ S.head?, a ≤ b) :
    List.Chain' (· ≤ ·) (P ++ (M ++ S)) := by
  apply List.chain'_append.mpr
  refine ⟨hP, List.chain'_append.mpr ⟨hM, hS, hMS⟩, ?_⟩
  intro a ha b hb
  cases M with
  | nil => exact absurd rfl hM0
  | cons m ms =>
    simp only [List.cons_append, List.head?_cons, Option.mem_def,
      Option.some.injEq] at hb
    exact hPM a ha b (by simp [← hb])

theorem runMeshThread_progress_chain (jobId geometryFile : String)
    (mcfg : MeshConfig) (env : MeshEnv)
    (hts : ∀ t ∈ env.snappyPolls, env.t0 ≤ t)
    (hsort : List.Chain' (· ≤ ·) env.snappyPolls) :
    List.Chain' (· ≤ ·)
      ((runMeshThread jobId geometryFile mcfg env).trace.map MeshJob.progress) := by
  unfold runMeshThread
  by_cases hok : (meshSetup (MeshJob.init jobId geometryFile mcfg) env).2.2 = true
  case neg =>
    rw [if_neg hok]
    obtain ⟨m, _, hfin, htr⟩ := meshSetup_failed _ env (by simpa using hok)
    simp only [htr]
    simp [MeshJob.init, List.chain'_cons]
  case pos =>
    rw [if_pos hok]
    obtain ⟨_, hfin, htr⟩ := meshSetup_ok _ env hok
    simp only [htr, hfin]
    unfold MeshJob.generateMesh meshFailPair
    have hchainM := meshMonitorRun_chain env.t0
      { MeshJob.init jobId geometryFile mcfg with
        status := "generating"
        start_time := some env.t0
        progress := 50 } env.snappyPolls hts hsort
      (by
        intro t ht
        exact meshWrite_ge_50 env.t0 t (hts t (List.mem_of_mem_head? ht)))
    have hlast := meshMonitorRun_cons_getLast? env.t0
      { MeshJob.init jobId geometryFile mcfg with
        status := "generating"
        start_time := some env.t0
        progress := 50 } env.snappyPolls
    have hle85 := meshMonitorRun_fst_progress_le env.t0
      { MeshJob.init jobId geometryFile mcfg with
        status := "generating"
        start_time := some env.t0
        progress := 50 } env.snappyPolls (by simp [MeshJob.init])
    have hlastM := congrArg (Option.map MeshJob.progress) hlast
    rw [← List.getLast?_map] at hlastM
    simp only [List.map_cons, Option.map_some'] at hlastM
    simp [MeshJob.init] at hchainM hlastM hle85
    cases hb : env.blockMeshRaise with
    | some m => simp [hb, MeshJob.init, List.chain'_cons]
    | none =>
      simp only [hb]
      cases hf : env.featureRaise with
      | some m => simp [hf, MeshJob.init, List.chain'_cons]
      | none =>
        simp only [hf]
        by_cases hse : env.snappyExit ≠ 0
        · simp only [if_pos hse]
          simp [MeshJob.init, List.map_append, List.chain'_cons]
          refine List.chain'_append.mpr ⟨hchainM, ?_, ?_⟩
          · simp [List.chain'_cons]
          · intro a ha b hb'
            rw [hlastM] at ha
            simp at ha hb'
            omega
        · simp only [if_neg hse]
          cases hcp : env.copyRaise with
          | some m =>
            simp only [hcp]
            simp [MeshJob.init, List.map_append, List.chain'_cons]
            refine List.chain'_append.mpr ⟨hchainM, ?_, ?_⟩
            · simp [List.chain'_cons]
            · intro a ha b hb'
              rw [hlastM] at ha
              simp at ha hb'
              omega
          | none =>
            simp only [hcp]
            simp [MeshJob.init, List.map_append, List.chain'_cons]
            refine List.chain'_append.mpr ⟨hchainM, ?_, ?_⟩
            · simp [List.chain'_cons]
            · intro a ha b hb'
              rw [hlastM] at ha
              simp at ha hb'
              omega

/-- C3 (counterexample): progress is not monotone for every job.  The
monitor write `50 + int(progress * 0.4)` (`cfd-server.py` line 598) is
driven by `_parse_log_progress`, which does not clamp below zero; a log
whose last `Time =` marker is negative drives progress from 50 down to
-350 while the status stays `running`. -/
theorem claim_C3_counterexample :
    ((runSimulationThread "sim1"
      { wind_speed := some 10, mesh_id := none, simulation_time := none,
        turbulence_model := none }
      { setupRaise := none, meshDirExists := false, copyRaise := none,
        t0 := 0, checkMeshExit := 0,
        polls := [some [], some [LogLine.marker (-1000000)]],
        solverExit := 0, postRaise := none, caseEntries := [],
        fieldsPresent := [], t1 := 1 }).trace.map
      (fun s => (s.status, s.progress)))[8]? = some ("running", 50) ∧
    ((runSimulationThread "sim1"
      { wind_speed := some 10, mesh_id := none, simulation_time := none,
        turbulence_model := none }
      { setupRaise := none, meshDirExists := false, copyRaise := none,
        t0 := 0, checkMeshExit := 0,
        polls := [some [], some [LogLine.marker (-1000000)]],
        solverExit := 0, postRaise := none, caseEntries := [],
        fieldsPresent := [], t1 := 1 }).trace.map
      (fun s => (s.status, s.progress)))[9]? = some ("running", -350) := by
  have hp1 : parseLogProgress (some []) none = 0 := rfl
  have hp2 : parseLogProgress (some [LogLine.marker (-1000000)]) none = -1000 := by
    norm_num [parseLogProgress, logMarkers, min_def]
  have hs1 : 50 + pyInt (parseLogProgress (some []) none * (2 / 5)) = 50 := by
    rw [hp1]; norm_num [pyInt]
  have hs2 : 50 + pyInt (parseLogProgress
      (some [LogLine.marker (-1000000)]) none * (2 / 5)) = -350 := by
    rw [hp2]; norm_num [pyInt]
  constructor <;>
    simp [runSimulationThread, setupCase, setupCopyOutcome, runSimulation,
      failPair, monitorRun, monitorStep, CFDSim.init, hs1, hs2,
      postProcessCopies, getLatestTime]

/-- C3 (amended): progress is monotonically non-decreasing along every
snapshot trace — of both kinds, through failures included — provided
the external inputs are sane: every `Time =` marker in the solver log
is non-negative and the configured total simulation time is positive
(for simulation jobs), and the sampled wall-clock times are
non-decreasing and not earlier than the recorded start time (for mesh
jobs).  Without the first proviso a negative log marker makes
simulation progress regress (see the counterexample). -/
theorem claim_C3_amended (simulationId : String) (config : SimConfig)
    (env : SimEnv) (jobId geometryFile : String) (mcfg : MeshConfig)
    (menv : MeshEnv)
    (hm : ∀ l ∈ env.polls, ∀ lines, l = some lines → ∀ v ∈ logMarkers lines, 0 ≤ v)
    (ht : 0 < config.simulation_time.getD 1000)
    (hts : ∀ t ∈ menv.snappyPolls, menv.t0 ≤ t)
    (hsort : List.Chain' (· ≤ ·) menv.snappyPolls) :
    List.Chain' (· ≤ ·)
      ((runSimulationThread simulationId config env).trace.map CFDSim.progress) ∧
    List.Chain' (· ≤ ·)
      ((runMeshThread jobId geometryFile mcfg menv).trace.map MeshJob.progress) :=
  ⟨runSimulationThread_progress_chain simulationId config env hm ht,
   runMeshThread_progress_chain jobId geometryFile mcfg menv hts hsort⟩

/-- C3 (witness): concrete runs of both kinds. -/
theorem claim_C3_witness :
    List.Chain' (· ≤ ·) ((runSimulationThread "sim1"
      { wind_speed := some 10, mesh_id := none, simulation_time := none,
        turbulence_model := none }
      { setupRaise := none, meshDirExists := false, copyRaise := none,
        t0 := 0, checkMeshExit := 0, polls := [], solverExit := 0,
        postRaise := none, caseEntries := [], fieldsPresent := [],
        t1 := 1 }).trace.map CFDSim.progress) ∧
    List.Chain' (· ≤ ·) ((runMeshThread "job1" "box.stl" MeshConfig.empty
      { geometrySuffix := ".stl", dirRaise := none, loadRaise := none,
        writeRaise := none, t0 := 0, blockMeshRaise := none,
        featureRaise := none, snappyPolls := [], snappyExit := 0,
        copyRaise := none, t1 := 1 }).trace.map MeshJob.progress) :=
  claim_C3_amended "sim1"
    { wind_speed := some 10, mesh_id := none, simulation_time := none,
      turbulence_model := none }
    { setupRaise := none, meshDirExists := false, copyRaise := none,
      t0 := 0, checkMeshExit := 0, polls := [], solverExit := 0,
      postRaise := none, caseEntries := [], fieldsPresent := [], t1 := 1 }
    "job1" "box.stl" MeshConfig.empty
    { geometrySuffix := ".stl", dirRaise := none, loadRaise := none,
      writeRaise := none, t0 := 0, blockMeshRaise := none,
      featureRaise := none, snappyPolls := [], snappyExit := 0,
      copyRaise := none, t1 := 1 }
    (by simp) (by norm_num) (by simp) (by simp)

/-- C4 (counterexample): workspace preparation does not fail when the
referenced mesh does not exist.  With `mesh_id = "m1"` and no mesh
directory, `setup_case` silently skips the copy (`cfd-server.py` lines
70-76), reports success, and the runner proceeds to run the solver —
the job even completes. -/
theorem claim_C4_counterexample :
    (setupCase (CFDSim.init "sim1"
      { wind_speed := some 10, mesh_id := some "m1",
        simulation_time := none, turbulence_model := none })
      { setupRaise := none, meshDirExists := false, copyRaise := none,
        t0 := 0, checkMeshExit := 0, polls := [], solverExit := 0,
        postRaise := none, caseEntries := [], fieldsPresent := [],
        t1 := 1 }).2.2 = true ∧
    (setupCase (CFDSim.init "sim1"
      { wind_speed := some 10, mesh_id := some "m1",
        simulation_time := none, turbulence_model := none })
      { setupRaise := none, meshDirExists := false, copyRaise := none,
        t0 := 0, checkMeshExit := 0, polls := [], solverExit := 0,
        postRaise := none, caseEntries := [], fieldsPresent := [],
        t1 := 1 }).1.error = none ∧
    "running" ∈ (runSimulationThread "sim1"
      { wind_speed := some 10, mesh_id := some "m1",
        simulation_time := none, turbulence_model := none }
      { setupRaise := none, meshDirExists := false, copyRaise := none,
        t0 := 0, checkMeshExit := 0, polls := [], solverExit := 0,
        postRaise := none, caseEntries := [], fieldsPresent := [],
        t1 := 1 }).trace.map CFDSim.status ∧
    (runSimulationThread "sim1"
      { wind_speed := some 10, mesh_id := some "m1",
        simulation_time := none, turbulence_model := none }
      { setupRaise := none, meshDirExists := false, copyRaise := none,
        t0 := 0, checkMeshExit := 0, polls := [], solverExit := 0,
        postRaise := none, caseEntries := [], fieldsPresent := [],
        t1 := 1 }).final.status = "completed" := by
  refine ⟨?_, ?_, ?_, ?_⟩ <;> decide

/-- C4 (amended): workspace preparation fails — job `failed`, `error`
set, nothing further runs — whenever setup raises (directory/write
failures for either kind, and an unsupported geometry format for a mesh
job, whose error names the offending suffix).  But a referenced input
artifact that does not exist is not such a case for the simulation
kind: a config naming a `mesh_id` with no corresponding mesh directory
passes setup — the copy is silently skipped, no error is recorded, and
the job proceeds to run the solver. -/
theorem claim_C4_amended (simulationId : String) (config : SimConfig)
    (env : SimEnv) (jobId geometryFile : String) (mcfg : MeshConfig)
    (menv : MeshEnv) :
    (∀ m, env.setupRaise = some m →
      (runSimulationThread simulationId config env).final.status = "failed" ∧
      (runSimulationThread simulationId config env).final.error =
        some ("Setup failed: " ++ m) ∧
      "running" ∉ (runSimulationThread simulationId config env).trace.map
        CFDSim.status) ∧
    (menv.dirRaise = none →
      strLower menv.geometrySuffix ∉ supportedSuffixes →
      (runMeshThread jobId geometryFile mcfg menv).final.status = "failed" ∧
      (runMeshThread jobId geometryFile mcfg menv).final.error =
        some ("Setup failed: Unsupported geometry format: " ++
          menv.geometrySuffix) ∧
      "generating" ∉ (runMeshThread jobId geometryFile mcfg menv).trace.map
        MeshJob.status) ∧
    (∀ mid, config.mesh_id = some mid → env.meshDirExists = false →
      env.setupRaise = none →
      (setupCase (CFDSim.init simulationId config) env).2.2 = true ∧
      (setupCase (CFDSim.init simulationId config) env).1.status = "setting_up" ∧
      (setupCase (CFDSim.init simulationId config) env).1.error = none) := by
  refine ⟨?_, ?_, ?_⟩
  · intro m hm
    refine ⟨?_, ?_, ?_⟩ <;>
      simp [runSimulationThread, setupCase, failPair, hm, CFDSim.init]
  · intro hdr hsuf
    have hmsg : ("Setup failed: " ++
        ("Unsupported geometry format: " ++ menv.geometrySuffix)) =
        "Setup failed: Unsupported geometry format: " ++ menv.geometrySuffix := by
      rw [← String.append_assoc,
        show ("Setup failed: " ++ "Unsupported geometry format: ") =
          "Setup failed: Unsupported geometry format: " from by decide]
    refine ⟨?_, ?_, ?_⟩ <;>
      simp [runMeshThread, meshSetup, meshSetupOutcome, meshFailPair, hdr,
        hsuf, MeshJob.init, hmsg]
  · intro mid hmid hmde hsr
    refine ⟨?_, ?_, ?_⟩ <;>
      simp [setupCase, setupCopyOutcome, failPair, hmid, hmde, hsr, CFDSim.init]

/-- C4 (witness): concrete instances of all three behaviours. -/
theorem claim_C4_witness :
    (runSimulationThread "sim1"
      { wind_speed := some 10, mesh_id := none, simulation_time := none,
        turbulence_model := none }
      { setupRaise := some "disk full", meshDirExists := false,
        copyRaise := none, t0 := 0, checkMeshExit := 0, polls := [],
        solverExit := 0, postRaise := none, caseEntries := [],
        fieldsPresent := [], t1 := 1 }).final.status = "failed" ∧
    (runMeshThread "job1" "box.step" MeshConfig.empty
      { geometrySuffix := ".step", dirRaise := none, loadRaise := none,
        writeRaise := none, t0 := 0, blockMeshRaise := none,
        featureRaise := none, snappyPolls := [], snappyExit := 0,
        copyRaise := none, t1 := 1 }).final.error =
      some "Setup failed: Unsupported geometry format: .step" ∧
    (setupCase (CFDSim.init "sim2"
      { wind_speed := some 10, mesh_id := some "m1",
        simulation_time := none, turbulence_model := none })
      { setupRaise := none, meshDirExists := false, copyRaise := none,
        t0 := 0, checkMeshExit := 0, polls := [], solverExit := 0,
        postRaise := none, caseEntries := [], fieldsPresent := [],
        t1 := 1 }).2.2 = true := by
  have h := claim_C4_amended "sim1"
    { wind_speed := some 10, mesh_id := none, simulation_time := none,
      turbulence_model := none }
    { setupRaise := some "disk full", meshDirExists := false,
      copyRaise := none, t0 := 0, checkMeshExit := 0, polls := [],
      solverExit := 0, postRaise := none, caseEntries := [],
      fieldsPresent := [], t1 := 1 }
    "job1" "box.step" MeshConfig.empty
    { geometrySuffix := ".step", dirRaise := none, loadRaise := none,
      writeRaise := none, t0 := 0, blockMeshRaise := none,
      featureRaise := none, snappyPolls := [], snappyExit := 0,
      copyRaise := none, t1 := 1 }
  have h2 := claim_C4_amended "sim2"
    { wind_speed := some 10, mesh_id := some "m1",
      simulation_time := none, turbulence_model := none }
    { setupRaise := none, meshDirExists := false, copyRaise := none,
      t0 := 0, checkMeshExit := 0, polls := [], solverExit := 0,
      postRaise := none, caseEntries := [], fieldsPresent := [],
      t1 := 1 }
    "job1" "box.step" MeshConfig.empty
    { geometrySuffix := ".step", dirRaise := none, loadRaise := none,
      writeRaise := none, t0 := 0, blockMeshRaise := none,
      featureRaise := none, snappyPolls := [], snappyExit := 0,
      copyRaise := none, t1 := 1 }
  exact ⟨(h.1 "disk full" rfl).1, (h.2.1 rfl (by decide)).2.1,
    (h2.2.2 "m1" rfl rfl rfl).1⟩

/-- C5 (counterexample): when the solver exits 0 but the case directory
holds no numbered time directory, the job still reaches `completed`
with no error and an empty result: `_post_process` silently skips the
copy when `_get_latest_time` returns `None` (`cfd-server.py` lines
660-671) and `run_simulation` proceeds to `completed` (lines 611-613);
no "no output produced" error exists anywhere in the code. -/
theorem claim_C5_counterexample :
    getLatestTime [⟨"constant", true, none⟩, ⟨"system", true, none⟩,
      ⟨"log.simpleFoam", false, none⟩] = none ∧
    (runSimulationThread "sim1"
      { wind_speed := some 10, mesh_id := none, simulation_time := none,
        turbulence_model := none }
      { setupRaise := none, meshDirExists := false, copyRaise := none,
        t0 := 0, checkMeshExit := 0, polls := [], solverExit := 0,
        postRaise := none,
        caseEntries := [⟨"constant", true, none⟩, ⟨"system", true, none⟩,
          ⟨"log.simpleFoam", false, none⟩],
        fieldsPresent := ["U", "p"], t1 := 1 }).final.status = "completed" ∧
    (runSimulationThread "sim1"
      { wind_speed := some 10, mesh_id := none, simulation_time := none,
        turbulence_model := none }
      { setupRaise := none, meshDirExists := false, copyRaise := none,
        t0 := 0, checkMeshExit := 0, polls := [], solverExit := 0,
        postRaise := none,
        caseEntries := [⟨"constant", true, none⟩, ⟨"system", true, none⟩,
          ⟨"log.simpleFoam", false, none⟩],
        fieldsPresent := ["U", "p"], t1 := 1 }).final.error = none ∧
    (runSimulationThread "sim1"
      { wind_speed := some 10, mesh_id := none, simulation_time := none,
        turbulence_model := none }
      { setupRaise := none, meshDirExists := false, copyRaise := none,
        t0 := 0, checkMeshExit := 0, polls := [], solverExit := 0,
        postRaise := none,
        caseEntries := [⟨"constant", true, none⟩, ⟨"system", true, none⟩,
          ⟨"log.simpleFoam", false, none⟩],
        fieldsPresent := ["U", "p"], t1 := 1 }).copies = [] := by
  refine ⟨?_, ?_, ?_, ?_⟩ <;> decide

/-- C5 (amended): if the external process exits successfully but no
numbered time directory exists, finalization silently skips the result
copy: the job still transitions to `completed`, `error` stays unset,
and the result directory receives no field files — no "no output
produced" failure is ever reported. -/
theorem claim_C5_amended (simulationId : String) (config : SimConfig)
    (env : SimEnv)
    (hok : (setupCase (CFDSim.init simulationId config) env).2.2 = true)
    (hc : env.checkMeshExit = 0) (hs : env.solverExit = 0)
    (hp : env.postRaise = none)
    (hno : getLatestTime env.caseEntries = none) :
    (runSimulationThread simulationId config env).final.status = "completed" ∧
    (runSimulationThread simulationId config env).final.error = none ∧
    (runSimulationThread simulationId config env).copies = [] := by
  obtain ⟨_, _, hfin, htr⟩ := setupCase_ok _ env hok
  unfold runSimulationThread
  rw [if_pos hok]
  simp only [hfin]
  unfold runSimulation failPair
  have hmf := monitorRun_fst_fields config.simulation_time
    { CFDSim.init simulationId config with
      status := "running"
      start_time := some env.t0
      progress := 50 } env.polls
  simp only [CFDSim.init] at hmf
  refine ⟨?_, ?_, ?_⟩ <;>
    simp [hc, hs, hp, CFDSim.init, postProcessCopies, hno, hmf.2.1]

/-- C5 (witness): the amended statement at the concrete environment of
the counterexample. -/
theorem claim_C5_witness :
    (runSimulationThread "sim2"
      { wind_speed := some 10, mesh_id := none, simulation_time := none,
        turbulence_model := none }
      { setupRaise := none, meshDirExists := false, copyRaise := none,
        t0 := 0, checkMeshExit := 0, polls := [], solverExit := 0,
        postRaise := none,
        caseEntries := [⟨"constant", true, none⟩, ⟨"system", true, none⟩],
        fieldsPresent := ["U", "p"], t1 := 1 }).final.status = "completed" ∧
    (runSimulationThread "sim2"
      { wind_speed := some 10, mesh_id := none, simulation_time := none,
        turbulence_model := none }
      { setupRaise := none, meshDirExists := false, copyRaise := none,
        t0 := 0, checkMeshExit := 0, polls := [], solverExit := 0,
        postRaise := none,
        caseEntries := [⟨"constant", true, none⟩, ⟨"system", true, none⟩],
        fieldsPresent := ["U", "p"], t1 := 1 }).final.error = none ∧
    (runSimulationThread "sim2"
      { wind_speed := some 10, mesh_id := none, simulation_time := none,
        turbulence_model := none }
      { setupRaise := none, meshDirExists := false, copyRaise := none,
        t0 := 0, checkMeshExit := 0, polls := [], solverExit := 0,
        postRaise := none,
        caseEntries := [⟨"constant", true, none⟩, ⟨"system", true, none⟩],
        fieldsPresent := ["U", "p"], t1 := 1 }).copies = [] :=
  claim_C5_amended "sim2"
    { wind_speed := some 10, mesh_id := none, simulation_time := none,
      turbulence_model := none }
    { setupRaise := none, meshDirExists := false, copyRaise := none,
      t0 := 0, checkMeshExit := 0, polls := [], solverExit := 0,
      postRaise := none,
      caseEntries := [⟨"constant", true, none⟩, ⟨"system", true, none⟩],
      fieldsPresent := ["U", "p"], t1 := 1 }
    (by decide) rfl rfl rfl (by decide)

theorem dropLast_twice_spine (L0 l2 l3 : List CFDSim) (g1 g2 : CFDSim) :
    (L0 ++ ((l2 ++ l3) ++ [g1, g2])).dropLast.dropLast = L0 ++ (l2 ++ l3) := by
  rw [show (L0 ++ ((l2 ++ l3) ++ [g1, g2])) =
      ((L0 ++ (l2 ++ l3)) ++ [g1]) ++ [g2] by simp]
  rw [List.dropLast_concat, List.dropLast_concat]

/-- C6 (confirmed): whenever the solver process exits with a nonzero
code (after a successful setup and mesh check), the simulation job
transitions to `failed` with `error = "Simulation failed"`
(`cfd-server.py` lines 600-603), its `end_time` is never set, and its
progress is exactly the progress of the last snapshot written before
the two failure assignments (the monitor's last write, or 50 when the
loop never ran). -/
theorem claim_C6 (simulationId : String) (config : SimConfig) (env : SimEnv)
    (hok : (setupCase (CFDSim.init simulationId config) env).2.2 = true)
    (hc : env.checkMeshExit = 0) (hs : env.solverExit ≠ 0) :
    (runSimulationThread simulationId config env).final.status = "failed" ∧
    (runSimulationThread simulationId config env).final.error =
      some "Simulation failed" ∧
    (runSimulationThread simulationId config env).final.end_time = none ∧
    ((runSimulationThread simulationId config env).trace.dropLast.dropLast.getLast?).map
      CFDSim.progress =
      some (runSimulationThread simulationId config env).final.progress := by
  obtain ⟨_, _, hfin, htr⟩ := setupCase_ok _ env hok
  unfold runSimulationThread
  rw [if_pos hok]
  simp only [hfin, htr]
  unfold runSimulation failPair
  have hmf := monitorRun_fst_fields config.simulation_time
    { CFDSim.init simulationId config with
      status := "running"
      start_time := some env.t0
      progress := 50 } env.polls
  have hml := monitorRun_cons_getLast? config.simulation_time
    { CFDSim.init simulationId config with
      status := "running"
      start_time := some env.t0
      progress := 50 } env.polls
  simp only [CFDSim.init] at hmf hml
  refine ⟨?_, ?_, ?_, ?_⟩
  · simp [hc, hs, CFDSim.init]
  · simp [hc, hs, CFDSim.init]
  · simp [hc, hs, CFDSim.init, hmf.2.2.2.1]
  · simp only [hc, hs, ne_eq, not_true_eq_false, not_false_eq_true,
      ite_false, ite_true, if_false, if_true]
    rw [dropLast_twice_spine]
    simp [CFDSim.init, List.getLast?_append, List.getLast?_cons_cons,
      List.getLast?_singleton]
    exact ⟨_, hml, rfl⟩

/-- C6 (witness): a concrete failing solver run. -/
theorem claim_C6_witness :
    (runSimulationThread "sim1"
      { wind_speed := some 10, mesh_id := none, simulation_time := none,
        turbulence_model := none }
      { setupRaise := none, meshDirExists := false, copyRaise := none,
        t0 := 0, checkMeshExit := 0, polls := [], solverExit := 1,
        postRaise := none, caseEntries := [], fieldsPresent := [],
        t1 := 1 }).final.status = "failed" ∧
    (runSimulationThread "sim1"
      { wind_speed := some 10, mesh_id := none, simulation_time := none,
        turbulence_model := none }
      { setupRaise := none, meshDirExists := false, copyRaise := none,
        t0 := 0, checkMeshExit := 0, polls := [], solverExit := 1,
        postRaise := none, caseEntries := [], fieldsPresent := [],
        t1 := 1 }).final.error = some "Simulation failed" ∧
    (runSimulationThread "sim1"
      { wind_speed := some 10, mesh_id := none, simulation_time := none,
        turbulence_model := none }
      { setupRaise := none, meshDirExists := false, copyRaise := none,
        t0 := 0, checkMeshExit := 0, polls := [], solverExit := 1,
        postRaise := none, caseEntries := [], fieldsPresent := [],
        t1 := 1 }).final.end_time = none ∧
    ((runSimulationThread "sim1"
      { wind_speed := some 10, mesh_id := none, simulation_time := none,
        turbulence_model := none }
      { setupRaise := none, meshDirExists := false, copyRaise := none,
        t0 := 0, checkMeshExit := 0, polls := [], solverExit := 1,
        postRaise := none, caseEntries := [], fieldsPresent := [],
        t1 := 1 }).trace.dropLast.dropLast.getLast?).map CFDSim.progress =
      some (runSimulationThread "sim1"
        { wind_speed := some 10, mesh_id := none, simulation_time := none,
          turbulence_model := none }
        { setupRaise := none, meshDirExists := false, copyRaise := none,
          t0 := 0, checkMeshExit := 0, polls := [], solverExit := 1,
          postRaise := none, caseEntries := [], fieldsPresent := [],
          t1 := 1 }).final.progress :=
  claim_C6 "sim1"
    { wind_speed := some 10, mesh_id := none, simulation_time := none,
      turbulence_model := none }
    { setupRaise := none, meshDirExists := false, copyRaise := none,
      t0 := 0, checkMeshExit := 0, polls := [], solverExit := 1,
      postRaise := none, caseEntries := [], fieldsPresent := [],
      t1 := 1 }
    (by decide) rfl (by decide)

theorem regSet_append_of_lookup_none (reg : SimRegistry) (k : String)
    (v : CFDSim) (h : reg.lookup k = none) :
    regSet reg k v = reg ++ [(k, v)] := by
  have hany : reg.any (fun p => p.1 == k) = false := by
    induction reg with
    | nil => rfl
    | cons p l ih =>
      obtain ⟨a, b⟩ := p
      by_cases hk : k = a
      · simp [List.lookup_cons, beq_iff_eq.mpr hk] at h
      · simp only [List.lookup_cons, beq_eq_false_iff_ne.mpr hk] at h
        simp only [List.any_cons, beq_eq_false_iff_ne.mpr (Ne.symm hk),
          Bool.false_or]
        exact ih h
  simp [regSet, hany]

theorem lookup_append_self (reg : SimRegistry) (k : String) (v : CFDSim)
    (h : reg.lookup k = none) :
    (reg ++ [(k, v)]).lookup k = some v := by
  induction reg with
  | nil => simp [List.lookup_cons]
  | cons p l ih =>
    obtain ⟨a, b⟩ := p
    by_cases hk : k = a
    · simp [List.lookup_cons, beq_iff_eq.mpr hk] at h
    · simp only [List.lookup_cons, beq_eq_false_iff_ne.mpr hk] at h
      simp only [List.cons_append, List.lookup_cons,
        beq_eq_false_iff_ne.mpr hk]
      exact ih h

theorem meshRegSet_append_of_lookup_none (reg : MeshRegistry) (k : String)
    (v : MeshJob) (h : reg.lookup k = none) :
    meshRegSet reg k v = reg ++ [(k, v)] := by
  have hany : reg.any (fun p => p.1 == k) = false := by
    induction reg with
    | nil => rfl
    | cons p l ih =>
      obtain ⟨a, b⟩ := p
      by_cases hk : k = a
      · simp [List.lookup_cons, beq_iff_eq.mpr hk] at h
      · simp only [List.lookup_cons, beq_eq_false_iff_ne.mpr hk] at h
        simp only [List.any_cons, beq_eq_false_iff_ne.mpr (Ne.symm hk),
          Bool.false_or]
        exact ih h
  simp [meshRegSet, hany]

/-- C7 (confirmed): a creation request missing a required field gets a
400 naming the field and inserts nothing; a valid request (all required
fields present — and, for the mesh endpoint, an existing geometry
file) inserts exactly one new record under the fresh id, immediately
`queued` with progress 0. -/
theorem claim_C7 (reg : SimRegistry) (config : SimConfig) (freshId : String)
    (mreg : MeshRegistry) (mreq : MeshRequest) (mfresh : String)
    (ge : Bool) :
    (config.wind_speed = none →
      startSimulation reg (some config) freshId =
        (.badRequest "Missing required field: wind_speed", reg)) ∧
    (config.wind_speed.isSome → config.mesh_id = none →
      startSimulation reg (some config) freshId =
        (.badRequest "Missing required field: mesh_id", reg)) ∧
    (config.wind_speed.isSome → config.mesh_id.isSome →
      reg.lookup freshId = none →
      startSimulation reg (some config) freshId =
        (.accepted freshId, reg ++ [(freshId, CFDSim.init freshId config)]) ∧
      (reg ++ [(freshId, CFDSim.init freshId config)]).length = reg.length + 1 ∧
      (reg ++ [(freshId, CFDSim.init freshId config)]).lookup freshId =
        some (CFDSim.init freshId config) ∧
      (CFDSim.init freshId config).status = "queued" ∧
      (CFDSim.init freshId config).progress = 0) ∧
    (mreq.geometry_file = none →
      generateMeshHandler mreg (some mreq) ge mfresh =
        (.badRequest "geometry_file required", mreg)) ∧
    (∀ gf, mreq.geometry_file = some gf →
      mreg.lookup mfresh = none →
      generateMeshHandler mreg (some mreq) true mfresh =
        (.accepted mfresh, mreg ++
          [(mfresh, MeshJob.init mfresh gf (mreq.config.getD MeshConfig.empty))]) ∧
      (MeshJob.init mfresh gf (mreq.config.getD MeshConfig.empty)).status =
        "queued" ∧
      (MeshJob.init mfresh gf (mreq.config.getD MeshConfig.empty)).progress = 0) := by
  refine ⟨?_, ?_, ?_, ?_, ?_⟩
  · intro h
    simp [startSimulation, h]
  · intro h1 h2
    simp [startSimulation, h2, Option.isSome_iff_exists.mp h1]
    obtain ⟨w, hw⟩ := Option.isSome_iff_exists.mp h1
    simp [hw]
  · intro h1 h2 hfree
    obtain ⟨w, hw⟩ := Option.isSome_iff_exists.mp h1
    obtain ⟨m, hm⟩ := Option.isSome_iff_exists.mp h2
    refine ⟨?_, by simp, lookup_append_self reg freshId _ hfree, rfl, rfl⟩
    simp [startSimulation, hw, hm, regSet_append_of_lookup_none reg freshId _ hfree]
  · intro h
    simp [generateMeshHandler, h]
  · intro gf hgf hfree
    refine ⟨?_, rfl, rfl⟩
    simp [generateMeshHandler, hgf,
      meshRegSet_append_of_lookup_none mreg mfresh _ hfree]

/-- C7 (witness): concrete requests of both kinds. -/
theorem claim_C7_witness :
    startSimulation [] (some
      { wind_speed := none, mesh_id := none, simulation_time := none,
        turbulence_model := none }) "id1" =
      (.badRequest "Missing required field: wind_speed", []) ∧
    startSimulation [] (some
      { wind_speed := some 10, mesh_id := some "m1",
        simulation_time := none, turbulence_model := none }) "id1" =
      (.accepted "id1", [("id1", CFDSim.init "id1"
        { wind_speed := some 10, mesh_id := some "m1",
          simulation_time := none, turbulence_model := none })]) ∧
    generateMeshHandler [] (some
      { geometry_file := some "box.stl", config := none }) true "id2" =
      (.accepted "id2", [("id2", MeshJob.init "id2" "box.stl"
        MeshConfig.empty)]) := by
  have h1 := claim_C7 []
    { wind_speed := none, mesh_id := none, simulation_time := none,
      turbulence_model := none } "id1" [] ⟨none, none⟩ "id2" true
  have h2 := claim_C7 []
    { wind_speed := some 10, mesh_id := some "m1", simulation_time := none,
      turbulence_model := none } "id1" []
    ⟨some "box.stl", none⟩ "id2" true
  exact ⟨h1.1 rfl, (h2.2.2.1 (by decide) (by decide) rfl).1,
    (h2.2.2.2.2 "box.stl" rfl rfl).1⟩

/-- C8 (counterexample): the estimator's result is not always in
[0, 1]: the ratio is clamped only from above (`min(..., 1.0)` at
`cfd-server.py` line 641), so a negative last `Time =` marker yields a
negative result. -/
theorem claim_C8_counterexample :
    parseLogProgress (some [LogLine.marker (-5)]) none < 0 := by
  norm_num [parseLogProgress, logMarkers, min_def]

/-- C8 (amended): the estimator is total and never exceeds 1; it
returns 0.0 when the file is unreadable, when no `Time =` marker is
present, or when the configured total time is zero (the
`ZeroDivisionError` is swallowed); otherwise it returns the ratio of
the most recently reported time value to the configured total,
clamped from above at 1.0 — but not from below, so a negative last
marker produces a negative value outside [0, 1]. -/
theorem claim_C8_amended (file : Option (List LogLine))
    (simulationTime : Option ℚ) :
    parseLogProgress file simulationTime ≤ 1 ∧
    parseLogProgress none simulationTime = 0 ∧
    (∀ lines, file = some lines → (logMarkers lines).getLast? = none →
      parseLogProgress file simulationTime = 0) ∧
    (∀ lines current, file = some lines →
      (logMarkers lines).getLast? = some current →
      simulationTime.getD 1000 ≠ 0 →
      parseLogProgress file simulationTime =
        min (current / simulationTime.getD 1000) 1) ∧
    (∀ lines current, file = some lines →
      (logMarkers lines).getLast? = some current →
      simulationTime.getD 1000 = 0 →
      parseLogProgress file simulationTime = 0) := by
  refine ⟨parseLogProgress_le_one file simulationTime, rfl, ?_, ?_, ?_⟩
  · intro lines hf hl
    subst hf
    simp [parseLogProgress, hl]
  · intro lines current hf hl hne
    subst hf
    simp [parseLogProgress, hl, hne]
  · intro lines current hf hl he
    subst hf
    simp [parseLogProgress, hl, he]

/-- C8 (witness): concrete logs exercising each case. -/
theorem claim_C8_witness :
    parseLogProgress (some [LogLine.marker 5, LogLine.other]) (some 10) ≤ 1 ∧
    parseLogProgress (some [LogLine.marker 5, LogLine.other]) (some 10) =
      min ((5 : ℚ) / 10) 1 ∧
    parseLogProgress (some []) (some 10) = 0 ∧
    parseLogProgress (some [LogLine.marker 5]) (some 0) = 0 := by
  have h1 := claim_C8_amended (some [LogLine.marker 5, LogLine.other]) (some 10)
  have h2 := claim_C8_amended (some []) (some 10)
  have h3 := claim_C8_amended (some [LogLine.marker 5]) (some 0)
  exact ⟨h1.1, h1.2.2.2.1 [LogLine.marker 5, LogLine.other] 5 rfl rfl (by norm_num),
    h2.2.2.1 [] rfl rfl, h3.2.2.2.2 [LogLine.marker 5] 5 rfl rfl rfl⟩

/-- C9 (counterexample): concurrent jobs are not isolated.  The runner
changes the process-wide working directory (`os.chdir`,
`cfd-server.py` line 566) and then launches external tools with no
`cwd=` argument, so in the interleaving where job `a` chdirs, then job
`b` chdirs, then job `a`'s first external tool starts, that tool runs
in — and writes its output into — job `b`'s case directory. -/
theorem claim_C9_counterexample :
    actionsOf "a" [SimAction.chdir "a", SimAction.chdir "b",
        SimAction.runExternal "a"] ++ [SimAction.runExternal "a"] =
      jobActions "a" ∧
    actionsOf "b" [SimAction.chdir "a", SimAction.chdir "b",
        SimAction.runExternal "a"] ++
        [SimAction.runExternal "b", SimAction.runExternal "b"] =
      jobActions "b" ∧
    (runSchedule ⟨["root"], []⟩ [SimAction.chdir "a", SimAction.chdir "b",
        SimAction.runExternal "a"]).writes = [(caseDirOf "b", "a")] ∧
    caseDirOf "b" ≠ caseDirOf "a" := by
  refine ⟨?_, ?_, ?_, ?_⟩ <;> decide

/-- C9 (amended): each job's case and result directories are derived
from its unique id — distinct ids give distinct directories, and a
case directory never coincides with a result directory.  However, the
directories are not touched only by their owner: because the working
directory is process-wide, for any two distinct ids there is an
interleaving of the two runners in which one job's external subprocess
writes into the other job's case directory. -/
theorem claim_C9_amended (a b : String) :
    (caseDirOf a = caseDirOf b → a = b) ∧
    (resultDirOf a = resultDirOf b → a = b) ∧
    caseDirOf a ≠ resultDirOf b ∧
    (a ≠ b → ∃ sched : List SimAction,
      actionsOf a sched ++ [SimAction.runExternal a] = jobActions a ∧
      actionsOf b sched ++
        [SimAction.runExternal b, SimAction.runExternal b] = jobActions b ∧
      (caseDirOf b, a) ∈ (runSchedule ⟨["root"], []⟩ sched).writes) := by
  refine ⟨?_, ?_, ?_, ?_⟩
  · intro h
    simpa [caseDirOf] using h
  · intro h
    simpa [resultDirOf] using h
  · simp [caseDirOf, resultDirOf]
  · intro hab
    refine ⟨[SimAction.chdir a, SimAction.chdir b, SimAction.runExternal a],
      ?_, ?_, ?_⟩
    · simp [actionsOf, jobActions, beq_eq_false_iff_ne.mpr (Ne.symm hab)]
    · simp [actionsOf, jobActions, beq_eq_false_iff_ne.mpr hab]
    · simp [runSchedule, stepAction]

/-- C9 (witness): two concrete distinct job ids. -/
theorem claim_C9_witness :
    (caseDirOf "jobA" = caseDirOf "jobA" → ("jobA" : String) = "jobA") ∧
    (∃ sched : List SimAction,
      actionsOf "jobA" sched ++ [SimAction.runExternal "jobA"] =
        jobActions "jobA" ∧
      actionsOf "jobB" sched ++
        [SimAction.runExternal "jobB", SimAction.runExternal "jobB"] =
        jobActions "jobB" ∧
      (caseDirOf "jobB", "jobA") ∈
        (runSchedule ⟨["root"], []⟩ sched).writes) :=
  ⟨(claim_C9_amended "jobA" "jobA").1,
   (claim_C9_amended "jobA" "jobB").2.2.2 (by decide)⟩

/-- C10 (confirmed): with an absent or `null` JSON body, `request.json`
is `None`, the membership test `field not in config` raises
`TypeError`, the handler's blanket `except` returns a 500 response
(`cfd-server.py` line 803, `mesh-server.py` line 540), and no job
record is created. -/
theorem claim_C10 (reg : SimRegistry) (freshId : String)
    (mreg : MeshRegistry) (mfresh : String) (ge : Bool) :
    startSimulation reg none freshId =
      (.serverError "argument of type 'NoneType' is not iterable", reg) ∧
    generateMeshHandler mreg none ge mfresh =
      (.serverError "argument of type 'NoneType' is not iterable", mreg) :=
  ⟨rfl, rfl⟩
